import Mathlib

/-!
# Green-Cut simulation engine: a shallow embedding with verified properties

This file embeds the deterministic turn-resolution and financial-computation
core of the Green-Cut company simulator in Lean 4 and settles the frozen
claims about it.

Embedding conventions:
* JavaScript numbers are modelled as exact rationals (`ℚ`). Decimal literals
  of the source (`1.2`, `0.25`, `1e-6`, ...) are read as the exact decimals
  they denote; float rounding is below the 1e-6 tolerances that all claims
  use and is not modelled.
* `Math.round` is `jround` (floor of x + 1/2, which matches JS behaviour on
  negative half-integers as well).
* 32-bit integer operations of the two string hashes are modelled exactly
  (`toInt32`, and an unsigned low-32-bit view where the source applies
  a final unsigned shift).
* The note strings pushed by the financial engine and the explainer strings
  pushed by the turn resolver carry no data that any claim inspects except
  for the direct-cash amount, so they are modelled as structured tags
  (`FinNote`, `ExplTag`), one tag per distinct source push site.
* Source field names are kept, except that the working-capital day fields
  `dso`/`dpo`/`dio` are spelled `dsoDays`/`dpoDays`/`dioDays` here.
* `Record<string, number>` dictionaries (the raw delta map) are modelled as
  insertion-ordered association lists (`DMap`), because the key mismatch
  between writers and readers of that dictionary is itself claim-relevant.
-/

namespace GreenCut

/-- JS Math.round: round half up (toward positive infinity). -/
def jround (q : ℚ) : ℤ := ⌊q + 1/2⌋

/-- Helper clamp from engine.ts: clamp(x, lo, hi) = Math.min(hi, Math.max(lo, x)). -/
def clampQ (x lo hi : ℚ) : ℚ := min hi (max lo x)

/-- The 1e-6 tolerance used by both financial-identity checks. -/
def tol : ℚ := 1 / 1000000

/-! ## Financial data model (contracts.ts) -/

/-- FinancialDrivers from contracts.ts (day fields renamed dso→dsoDays etc.). -/
structure FinancialDrivers where
  units_sold : ℚ
  avg_price : ℚ
  unit_cost : ℚ
  opex_base : ℚ
  capex_base : ℚ
  dsoDays : ℚ
  dpoDays : ℚ
  dioDays : ℚ
deriving DecidableEq, Repr

/-- FinancialParams from contracts.ts. -/
structure FinancialParams where
  period_days : ℚ
  min_cash_buffer : ℚ
  depreciation_life_years : ℚ
  price_to_units : ℚ
  morale_to_units : ℚ
  credibility_to_price : ℚ
  scrap_rate : ℚ
deriving DecidableEq, Repr

/-- MiniPnL from contracts.ts. -/
structure MiniPnL where
  revenue : ℚ
  cogs : ℚ
  gross_profit : ℚ
  opex : ℚ
  ebitda : ℚ
  depreciation : ℚ
  ebit : ℚ
  interest : ℚ
  taxes : ℚ
  net_income : ℚ
deriving DecidableEq, Repr

/-- MiniBalanceSheet from contracts.ts. -/
structure MiniBalanceSheet where
  cash : ℚ
  ar : ℚ
  inventory : ℚ
  ppe : ℚ
  ap : ℚ
  debt : ℚ
  retained_earnings : ℚ
  other_equity : ℚ
deriving DecidableEq, Repr

/-- MiniCashFlow from contracts.ts. -/
structure MiniCashFlow where
  cfo : ℚ
  cfi : ℚ
  cff : ℚ
deriving DecidableEq, Repr

/-- Structured tags for the note strings pushed by computeFinancials, one
constructor per push site (the scrap tag abstracts the interpolated factor). -/
inductive FinNote where
  | scrapApplied
  | debtDraw
  | dividendPaid
  | rePlug
  | reconDrift
deriving DecidableEq, Repr

/-- FinancialSnapshot from contracts.ts (notes as tags, see FinNote). -/
structure FinancialSnapshot where
  cash_open : ℚ
  pnl : MiniPnL
  cashflow : MiniCashFlow
  balance : MiniBalanceSheet
  cash_close : ℚ
  balance_ok : Bool
  cash_recon_ok : Bool
  notes : List FinNote
deriving DecidableEq, Repr

/-- The optional policy block of FinanceInput. -/
structure FinPolicy where
  dividend : Bool
  repay_debt : Bool
deriving DecidableEq, Repr

/-- FinanceInput from contracts.ts. -/
structure FinanceInput where
  prev_balance : MiniBalanceSheet
  drivers : FinancialDrivers
  params : FinancialParams
  policy : Option FinPolicy
  direct_cash_spending : Option ℚ
deriving DecidableEq, Repr

/-- Result of the financing-policy step of computeFinancials (finance.ts
lines 48-69): debt, cumulative CFF, retained earnings, the provisional cash
close, and the notes accumulated so far. -/
structure FinanceStep where
  debt : ℚ
  cff : ℚ
  retained_earnings : ℚ
  prov : ℚ
  notes : List FinNote
deriving DecidableEq, Repr

/-- The deterministic financing policy of computeFinancials, transcribed from
finance.ts lines 48-69: a debt draw closes any gap to the minimum cash
buffer; otherwise, under a dividend policy with positive retained earnings
and surplus cash, up to 25 percent of the surplus is paid out. -/
def financingStep (prevDebt retained0 buffer prov0 : ℚ) (dividendPolicy : Bool)
    (notes1 : List FinNote) : FinanceStep :=
  if prov0 < buffer then
    { debt := prevDebt + (buffer - prov0), cff := 0 + (buffer - prov0),
      retained_earnings := retained0, prov := prov0 + (buffer - prov0),
      notes := notes1 ++ [FinNote.debtDraw] }
  else if dividendPolicy = true ∧ 0 < retained0 ∧ buffer < prov0 then
    let div := min retained0 ((prov0 - buffer) * 0.25)
    if 0 < div then
      { debt := prevDebt, cff := 0 - div, retained_earnings := retained0 - div,
        prov := prov0 - div, notes := notes1 ++ [FinNote.dividendPaid] }
    else
      { debt := prevDebt, cff := 0, retained_earnings := retained0, prov := prov0,
        notes := notes1 }
  else
    { debt := prevDebt, cff := 0, retained_earnings := retained0, prov := prov0,
      notes := notes1 }

/-- Result of the identity checks of computeFinancials (finance.ts lines
78-90): the possibly-plugged balance sheet, the two health flags, and the
final note list. -/
structure CheckResult where
  balance : MiniBalanceSheet
  balance_ok : Bool
  cash_recon_ok : Bool
  notes : List FinNote
deriving DecidableEq, Repr

/-- The identity checks of computeFinancials, transcribed from finance.ts
lines 78-90: when assets and liabilities-plus-equity drift beyond the 1e-6
tolerance, a plug is added to retained earnings, a note recorded, and
balance_ok forced true; the cash reconciliation compares the recomputed cash
close against the provisional close and only records a note on failure. -/
def balanceChecks (balance0 : MiniBalanceSheet) (notes2 : List FinNote)
    (cash_close prov : ℚ) : CheckResult :=
  let assets := balance0.cash + balance0.ar + balance0.inventory + balance0.ppe
  let liab_eq := balance0.ap + balance0.debt + balance0.other_equity +
    balance0.retained_earnings
  let balance_ok0 : Bool := decide (|assets - liab_eq| < tol)
  let balance1 :=
    if balance_ok0 then balance0
    else { balance0 with retained_earnings := balance0.retained_earnings + (assets - liab_eq) }
  let balance_ok1 : Bool := if balance_ok0 then balance_ok0 else true
  let notes3 := if balance_ok0 then notes2 else notes2 ++ [FinNote.rePlug]
  let cash_recon_ok : Bool := decide (|cash_close - prov| < tol)
  let notes4 := if cash_recon_ok then notes3 else notes3 ++ [FinNote.reconDrift]
  { balance := balance1, balance_ok := balance_ok1, cash_recon_ok := cash_recon_ok,
    notes := notes4 }

/-- computeFinancials from finance.ts, transcribed line by line over exact
rationals. The financing branch is the extracted financingStep and the final
identity checks are the extracted balanceChecks; everything else follows the
source order: P&L, working capital, capex, indirect cash flow, financing,
cash floor, then the checks. -/
def computeFinancials (input : FinanceInput) : FinancialSnapshot :=
  let prev := input.prev_balance
  let drivers := input.drivers
  let params := input.params
  let direct_cash_spending := input.direct_cash_spending.getD 0
  let cash_open := prev.cash
  let revenue := drivers.units_sold * drivers.avg_price
  let cogs_core := drivers.units_sold * drivers.unit_cost
  let cogs_scrap := cogs_core * params.scrap_rate
  let cogs := cogs_core + cogs_scrap
  let notes1 : List FinNote := if 0 < params.scrap_rate then [FinNote.scrapApplied] else []
  let gross_profit := revenue - cogs
  let opex := drivers.opex_base
  let ebitda := gross_profit - opex
  let dep_life_years := max 1 params.depreciation_life_years
  let depreciation := prev.ppe / dep_life_years / 12 * (params.period_days / 30)
  let ebit := ebitda - depreciation
  let interest := prev.debt * 0
  let taxes := max 0 (ebit - interest) * 0
  let net_income := ebit - interest - taxes
  let period := max 1 params.period_days
  let ar := revenue * (drivers.dsoDays / period)
  let inventory := cogs * (drivers.dioDays / period)
  let ap := cogs * (drivers.dpoDays / period)
  let dAR := ar - prev.ar
  let dInv := inventory - prev.inventory
  let dAP := ap - prev.ap
  let deltaNWC := dAR + dInv - dAP
  let capex := drivers.capex_base
  let ppe := max 0 (prev.ppe + capex - depreciation)
  let cfo := net_income + depreciation - deltaNWC
  let cfi := -capex
  let direct_cash_flow := -direct_cash_spending
  let retained0 := prev.retained_earnings + net_income
  let other_equity := prev.other_equity
  let prov0 := cash_open + cfo + cfi + 0 + direct_cash_flow
  let dividendPolicy := (input.policy.map FinPolicy.dividend).getD false
  let step := financingStep prev.debt retained0 params.min_cash_buffer prov0 dividendPolicy notes1
  let cash_close := cash_open + cfo + cfi + step.cff + direct_cash_flow
  let cash := max 0 cash_close
  let balance0 : MiniBalanceSheet :=
    { cash := cash, ar := ar, inventory := inventory, ppe := ppe, ap := ap,
      debt := step.debt, retained_earnings := step.retained_earnings,
      other_equity := other_equity }
  let checks := balanceChecks balance0 step.notes cash_close step.prov
  { cash_open := cash_open,
    pnl := { revenue := revenue, cogs := cogs, gross_profit := gross_profit,
             opex := opex, ebitda := ebitda, depreciation := depreciation,
             ebit := ebit, interest := interest, taxes := taxes,
             net_income := net_income },
    cashflow := { cfo := cfo, cfi := cfi, cff := step.cff },
    balance := checks.balance,
    cash_close := cash,
    balance_ok := checks.balance_ok,
    cash_recon_ok := checks.cash_recon_ok,
    notes := checks.notes }

/-! ## Finance defaults (engine.ts bottom section) -/

/-- FINANCE_PARAMS_DEFAULT from engine.ts. -/
def FINANCE_PARAMS_DEFAULT : FinancialParams :=
  { period_days := 30, min_cash_buffer := 250000, depreciation_life_years := 5,
    price_to_units := 0, morale_to_units := 0, credibility_to_price := 0,
    scrap_rate := 0 }

/-- STARTING_BALANCE from engine.ts. -/
def STARTING_BALANCE : MiniBalanceSheet :=
  { cash := 1000000, ar := 250000, inventory := 300000, ppe := 2000000,
    ap := 200000, debt := 0, retained_earnings := 1350000, other_equity := 1700000 }

/-- BASELINE_DRIVERS from engine.ts. -/
def BASELINE_DRIVERS : FinancialDrivers :=
  { units_sold := 10000, avg_price := 100, unit_cost := 60, opex_base := 300000,
    capex_base := 50000, dsoDays := 30, dpoDays := 30, dioDays := 45 }

/-- The baseline finance input of the scenario tests: starting balance,
baseline drivers, default parameters, no policy, no direct spending. -/
def baselineFinanceInput : FinanceInput :=
  { prev_balance := STARTING_BALANCE, drivers := BASELINE_DRIVERS,
    params := FINANCE_PARAMS_DEFAULT, policy := Option.none,
    direct_cash_spending := Option.none }

/-! ## Core state and evaluator contracts (contracts.ts) -/

/-- Caps from contracts.ts. -/
structure Caps where
  morale : ℚ
  credibility : ℚ
  service_risk : ℚ
  backlog_pressure : ℚ
deriving DecidableEq, Repr

/-- DEFAULT_CAPS from contracts.ts. -/
def DEFAULT_CAPS : Caps :=
  { morale := 3, credibility := 2, service_risk := 0.6, backlog_pressure := 1 }

/-- Signal direction (contracts.ts DirectionSchema). -/
inductive Dir where
  | up
  | down
  | none
deriving DecidableEq, Repr

/-- DirStrength from contracts.ts. -/
structure DirStrength where
  dir : Dir
  strength : ℚ
deriving DecidableEq, Repr

/-- The four-metric signal block of EvaluatorOutput. -/
structure Signals where
  morale : DirStrength
  credibility : DirStrength
  backlog_pressure : DirStrength
  service_risk : DirStrength
deriving DecidableEq, Repr

/-- The optional impact channels of the echoed event (contracts.ts). -/
structure ImpactChannels where
  morale : Option DirStrength
  credibility : Option DirStrength
  backlog_pressure : Option DirStrength
  service_risk : Option DirStrength
deriving DecidableEq, Repr

/-- The event block echoed inside EvaluatorOutput. -/
structure EvalEvent where
  roll : ℚ
  event_type : String
  impact_channels : ImpactChannels
  severity_note : String
deriving DecidableEq, Repr

/-- The assessment block of EvaluatorOutput. -/
structure Assessment where
  intent : List String
  targets : List String
  tone : String
  fit_reasons : List String
deriving DecidableEq, Repr

/-- Synergy classification of the integrated block. -/
inductive Synergy where
  | aligned
  | undermined
  | neutral
deriving DecidableEq, Repr

/-- The integrated block of EvaluatorOutput. -/
structure Integrated where
  synergy : Synergy
  narrative_hook : String
deriving DecidableEq, Repr

/-- The penalties block of EvaluatorOutput. -/
structure Penalties where
  nonsense_penalty : ℚ
deriving DecidableEq, Repr

/-- The policy block of EvaluatorOutput. -/
structure PolicyBlock where
  oob : Bool
  violations : List String
deriving DecidableEq, Repr

/-- EvaluatorOutput from contracts.ts. -/
structure EvaluatorOutput where
  assessment : Assessment
  signals : Signals
  event : EvalEvent
  integrated : Integrated
  penalties : Penalties
  policy : PolicyBlock
  rationale : String
deriving DecidableEq, Repr

/-- Flags from contracts.ts: four legacy booleans plus eight pressure values. -/
structure Flags where
  supply_fragile : Bool
  labor_tense : Bool
  quality_watch : Bool
  tail_risk : Bool
  supply : ℚ
  labor : ℚ
  quality : ℚ
  competition : ℚ
  finance : ℚ
  regulation : ℚ
  tech : ℚ
  weather : ℚ
deriving DecidableEq, Repr

/-- Pressures from contracts.ts. -/
structure Pressures where
  margin_push : Bool
deriving DecidableEq, Repr

/-- Headroom from contracts.ts. -/
structure Headroom where
  ot_pct : ℚ
  temps_allowed : Bool
deriving DecidableEq, Repr

/-- The legacy event field of State (category and tier enums kept as the
strings the schema allows). -/
structure LegacyEvent where
  category : String
  tier : String
deriving DecidableEq, Repr

/-- The optional financial-metric block of State. -/
structure PnlState where
  revenue : ℚ
  cogs : ℚ
  gm_percent : ℚ
  opex : ℚ
  net : ℚ
  cash : ℚ
deriving DecidableEq, Repr

/-- The optional KPI block of State. -/
structure Kpis where
  share_percent : ℚ
  service_nps : ℚ
  morale : ℚ
  backlog_units : ℚ
deriving DecidableEq, Repr

/-- Effect-delta record shared by shock, reward and active events. -/
structure EventEffects where
  revenue_delta : ℚ
  cogs_delta : ℚ
  opex_delta : ℚ
  cash_delta : ℚ
  share_delta : ℚ
  nps_delta : ℚ
  morale_delta : ℚ
  backlog_delta : ℚ
  notes : String
deriving DecidableEq, Repr

/-- Decay class of an active event. -/
inductive Decay where
  | slow
  | fast
deriving DecidableEq, Repr

/-- ActiveEvent from contracts.ts. -/
structure ActiveEvent where
  category : String
  tier : ℚ
  name : String
  effects : EventEffects
  decay : Decay
deriving DecidableEq, Repr

/-- State from contracts.ts. The optional schema fields are Options. The
extra `financials` field is not part of StateSchema, but resolveTurn reads
`state.financials.balance` through an untyped access, so the runtime object
may carry it; it is modelled as an optional field. -/
structure State where
  turn_no : ℤ
  period : Option String
  pnl : Option PnlState
  kpis : Option Kpis
  event : LegacyEvent
  morale : ℚ
  credibility : ℚ
  backlog : ℚ
  service : ℚ
  share : ℚ
  cash_runway : ℚ
  flags : Flags
  pressures : Pressures
  headroom : Headroom
  recent_moves : List String
  tail_risk : Option ℚ
  shock_decay : Option ℚ
  reward_decay : Option ℚ
  ceo_credibility : Option ℚ
  active_shocks : Option (List ActiveEvent)
  active_rewards : Option (List ActiveEvent)
  notes : Option (List String)
  financials : Option FinancialSnapshot
deriving DecidableEq, Repr

/-! ## Signal resolver (engine.ts applyContextMods to clampDeltas)

The raw delta dictionary is a `Record<string, number>` in the source. It is
modelled as an insertion-ordered association list: `dget` is member read,
`dset` is member write (updating in place, appending when the key is new),
matching the JS object semantics the key-mismatch claim depends on. -/

/-- Insertion-ordered string-keyed number map (Record of string and number). -/
abbrev DMap : Type := List (String × ℚ)

/-- Dictionary read: first entry with the key, if any. -/
def dget : DMap → String → Option ℚ
  | [], _ => Option.none
  | (k, v) :: rest, key => if k = key then some v else dget rest key

/-- Dictionary write: update in place, append when absent (JS assignment). -/
def dset : DMap → String → ℚ → DMap
  | [], key, v => [(key, v)]
  | (k, w) :: rest, key, v =>
      if k = key then (k, v) :: rest else (k, w) :: dset rest key v

/-- JS (x || 0) for a possibly-missing number (0 maps to 0 either way). -/
def jsOr0 (o : Option ℚ) : ℚ := o.getD 0

/-- JS (caps[key] || 1.0): a missing key and a zero cap both fall back to 1. -/
def jsOr1 (o : Option ℚ) : ℚ :=
  match o with
  | some c => if c = 0 then 1 else c
  | Option.none => 1

/-- TS member access caps[key as keyof Caps]: the four declared keys resolve,
anything else (notably the legacy key "service") is undefined. -/
def capLookup (caps : Caps) (key : String) : Option ℚ :=
  if key = "morale" then some caps.morale
  else if key = "credibility" then some caps.credibility
  else if key = "service_risk" then some caps.service_risk
  else if key = "backlog_pressure" then some caps.backlog_pressure
  else Option.none

/-- applyContextMods from engine.ts: labor tension inflates morale and dents
credibility, then high morale decays. -/
def applyContextMods (state : State) : State :=
  let m1 :=
    if state.flags.labor_tense then
      { state with morale := min 100 (state.morale * 1.2),
                   credibility := max 0 (state.credibility * 0.9) }
    else state
  if m1.morale > 85 then { m1 with morale := max 0 (m1.morale * 0.8) } else m1

/-- One entry of the CEO-signal layer (the forEach body of applyCEOSignals):
none gives 0; backlog is unit-scaled with round(strength by 250) and a 1.2
supply-fragility factor; otherwise strength times (caps[key] || 1) with sign. -/
def ceoEntry (key : String) (sig : DirStrength) (state : State) (caps : Caps) : ℚ :=
  match sig.dir with
  | Dir.none => 0
  | d =>
    let sign : ℚ := if d = Dir.up then 1 else -1
    if key = "backlog" then
      let unitsDelta : ℚ := ((jround (sig.strength * 250) : ℤ) : ℚ) * sign
      let supplyMod : ℚ := if state.flags.supply_fragile then 1.2 else 1
      unitsDelta * supplyMod
    else
      sig.strength * jsOr1 (capLookup caps key) * sign

/-- applyCEOSignals from engine.ts: the legacy remapping stores the
backlog-pressure signal under key "backlog" and the service-risk signal under
key "service" (for which caps[key] is undefined, so its cap factor is 1). -/
def applyCEOSignals (signals : Signals) (state : State) (caps : Caps) : DMap :=
  [("morale", ceoEntry "morale" signals.morale state caps),
   ("credibility", ceoEntry "credibility" signals.credibility state caps),
   ("backlog", ceoEntry "backlog" signals.backlog_pressure state caps),
   ("service", ceoEntry "service" signals.service_risk state caps)]

/-- One impact channel of applyEventImpact: skipped when missing or none;
backlog unit-scale is 200 with a 1.3 supply factor; other channels apply 80
percent of the CEO formula, accumulated with (deltas[k] || 0) + delta. -/
def eventChannel (m : DMap) (key stateKey : String) (sig : Option DirStrength)
    (state : State) (caps : Caps) : DMap :=
  match sig with
  | Option.none => m
  | some s =>
    match s.dir with
    | Dir.none => m
    | d =>
      let sign : ℚ := if d = Dir.up then 1 else -1
      if stateKey = "backlog" then
        let unitsDelta : ℚ := ((jround (s.strength * 200) : ℤ) : ℚ) * sign
        let supplyMod : ℚ := if state.flags.supply_fragile then 1.3 else 1
        dset m stateKey (jsOr0 (dget m stateKey) + unitsDelta * supplyMod)
      else
        dset m stateKey
          (jsOr0 (dget m stateKey) + s.strength * jsOr1 (capLookup caps key) * sign * 0.8)

/-- applyEventImpact from engine.ts: iterates the impact channels in schema
order, remapping backlog_pressure to "backlog" and service_risk to "service". -/
def applyEventImpact (ic : ImpactChannels) (state : State) (caps : Caps) : DMap :=
  let m1 := eventChannel [] "morale" "morale" ic.morale state caps
  let m2 := eventChannel m1 "credibility" "credibility" ic.credibility state caps
  let m3 := eventChannel m2 "backlog_pressure" "backlog" ic.backlog_pressure state caps
  eventChannel m3 "service_risk" "service" ic.service_risk state caps

/-- applyNonsensePenalty from engine.ts: no entries for a non-positive
penalty; otherwise a credibility hit of penalty times 0.2 of the credibility
cap, plus a morale hit only when current credibility is below 50. -/
def applyNonsensePenalty (nonsensePenalty : ℚ) (state : State) (caps : Caps) : DMap :=
  if nonsensePenalty ≤ 0 then []
  else
    let penaltyCap := caps.credibility * 0.2
    let credibilityPenalty := -nonsensePenalty * penaltyCap
    let moralePenalty :=
      if state.credibility < 50 then -nonsensePenalty * caps.morale * 0.1 else 0
    [("credibility", credibilityPenalty), ("morale", moralePenalty)]

/-- The merge loop of applySignals: for each entry of the added map,
combined[key] = (combined[key] || 0) + delta. -/
def combineLoop : DMap → DMap → DMap
  | acc, [] => acc
  | acc, (k, v) :: rest => combineLoop (dset acc k (jsOr0 (dget acc k) + v)) rest

/-- applySignals from engine.ts: CEO layer, then event layer, then penalty
layer, merged additively. -/
def applySignals (ev : EvaluatorOutput) (state : State) (caps : Caps) : DMap :=
  let ceoDeltas := applyCEOSignals ev.signals state caps
  let eventDeltas := applyEventImpact ev.event.impact_channels state caps
  let penaltyDeltas := applyNonsensePenalty ev.penalties.nonsense_penalty state caps
  combineLoop (combineLoop ceoDeltas eventDeltas) penaltyDeltas

/-- The applied (clamped) per-metric deltas record of engine.ts clampDeltas. -/
structure AppliedDeltas where
  morale : ℚ
  credibility : ℚ
  backlog : ℚ
  service : ℚ
  share : ℚ
  cash_runway : ℚ
deriving DecidableEq, Repr

/-- The forEach body of clampDeltas: pick the cap for the key (backlog uses
backlog_pressure times 250; share and cash_runway reuse backlog_pressure;
unknown keys use 1), clamp symmetrically, and store into the matching field
(entries with other keys are dropped). -/
def clampEntry (applied : AppliedDeltas) (key : String) (delta : ℚ) (caps : Caps) :
    AppliedDeltas :=
  let cap : ℚ :=
    if key = "morale" then caps.morale
    else if key = "credibility" then caps.credibility
    else if key = "service" then caps.service_risk
    else if key = "backlog" then caps.backlog_pressure * 250
    else if key = "share" then caps.backlog_pressure
    else if key = "cash_runway" then caps.backlog_pressure
    else 1
  let clamped := max (-cap) (min cap delta)
  if key = "morale" then { applied with morale := clamped }
  else if key = "credibility" then { applied with credibility := clamped }
  else if key = "backlog" then { applied with backlog := clamped }
  else if key = "service" then { applied with service := clamped }
  else if key = "share" then { applied with share := clamped }
  else if key = "cash_runway" then { applied with cash_runway := clamped }
  else applied

/-- The iteration of clampDeltas over the raw delta entries. -/
def clampLoop : AppliedDeltas → DMap → Caps → AppliedDeltas
  | acc, [], _ => acc
  | acc, (k, v) :: rest, caps => clampLoop (clampEntry acc k v caps) rest caps

/-- clampDeltas from engine.ts: start from the all-zero applied record and
fold the raw entries through clampEntry (the state argument is unused in the
source as well). -/
def clampDeltas (deltas : DMap) (_state : State) (caps : Caps) : AppliedDeltas :=
  clampLoop { morale := 0, credibility := 0, backlog := 0, service := 0,
              share := 0, cash_runway := 0 } deltas caps

/-! ## Turn resolver support (engine.ts bottom constants and helpers) -/

/-- sgn from engine.ts. -/
def sgn (dir : Dir) : ℚ :=
  match dir with
  | Dir.up => 1
  | Dir.down => -1
  | Dir.none => 0

/-- One step of the FNV-1a style hashStr loop, on the unsigned low-32-bit
view: xor with the char code, then a 32-bit multiply by 16777619 (Math.imul
produces the signed view of these same low 32 bits; the final unsigned shift
in the source makes the unsigned view exact). -/
def hashStrStep (h : ℕ) (c : Char) : ℕ := ((h ^^^ c.toNat) * 16777619) % 4294967296

/-- The loop of hashStr. -/
def hashStrAux : ℕ → List Char → ℕ
  | h, [] => h
  | h, c :: cs => hashStrAux (hashStrStep h c) cs

/-- hashStr from engine.ts (FNV-1a over UTF-16 code units; code points and
code units agree on the ASCII strings all claims use). -/
def hashStr (s : String) : ℕ := hashStrAux 2166136261 s.data

/-- COEF from engine.ts, the KPI-to-driver elasticities (day-count names
spelled out: backlog_to_dioDays is the source backlog_to_dio_days and
supplyFragile_to_dioDays the source supplyFragile_to_dio). -/
structure CoefRec where
  morale_to_units : ℚ
  cred_to_price : ℚ
  backlog_to_units : ℚ
  service_to_returns : ℚ
  service_to_dso_days : ℚ
  backlog_to_dioDays : ℚ
  supplyFragile_to_dioDays : ℚ
  regProbe_to_dso : ℚ
deriving DecidableEq, Repr

/-- COEF values from engine.ts. -/
def COEF : CoefRec :=
  { morale_to_units := 0.06, cred_to_price := 0.02, backlog_to_units := -0.08,
    service_to_returns := 0.03, service_to_dso_days := 3, backlog_to_dioDays := 4,
    supplyFragile_to_dioDays := 3, regProbe_to_dso := 2 }

/-- DRIVER_BOUNDS from engine.ts. -/
structure DriverBounds where
  units_min : ℚ
  units_max : ℚ
  price_min : ℚ
  price_max : ℚ
  cost_min : ℚ
  cost_max : ℚ
  dso_min : ℚ
  dso_max : ℚ
  dpo_min : ℚ
  dpo_max : ℚ
  dio_min : ℚ
  dio_max : ℚ
  capex_min : ℚ
  capex_max : ℚ
deriving DecidableEq, Repr

/-- DRIVER_BOUNDS values from engine.ts. -/
def DRIVER_BOUNDS : DriverBounds :=
  { units_min := 100, units_max := 1000000, price_min := 10, price_max := 10000,
    cost_min := 5, cost_max := 9999, dso_min := 5, dso_max := 90,
    dpo_min := 5, dpo_max := 90, dio_min := 5, dio_max := 120,
    capex_min := 0, capex_max := 5000000 }

/-- Structured tags for the finance explainer strings pushed by resolveTurn,
one constructor per push site, in source order; the direct-cash tag carries
the spend amount the source interpolates. -/
inductive ExplTag where
  | moraleLiftedUnits
  | moraleSoftenedUnits
  | credSupportedPrice
  | credPressuredPrice
  | backlogConstrainedUnits
  | backlogImprovedUnits
  | serviceRaisedScrap
  | serviceReducedScrap
  | supplyFragileInventoryDays
  | regProbeReceivableDays
  | penaltyTrimmedUnits
  | penaltyTrimmedPrice
  | eventRaisedFriction
  | eventLimitedFulfillment
  | directCash (amount : ℚ)
deriving DecidableEq, Repr

/-! ## Direct cash-spending detection (engine.ts detectCashSpending)

The five regular expressions of the source are modelled as leftmost-match
scanners over the lower-cased character list. Alternations are tried in
source order; the first alternatives of every alternation used here start
with pairwise distinct letters and are followed by disjoint character
classes, so the greedy, non-backtracking scan coincides with the JS regex
engine on these patterns. toLowerCase is modelled on ASCII (Char.toLower). -/

/-- Greedy run of decimal digits: digits taken and the remaining input. -/
def takeDigits : List Char → List Char × List Char
  | [] => ([], [])
  | c :: cs =>
      if c.isDigit then
        let p := takeDigits cs
        (c :: p.1, p.2)
      else ([], c :: cs)

/-- Greedy whitespace skip (the regex star over whitespace). -/
def skipWs : List Char → List Char
  | [] => []
  | c :: cs => if c.isWhitespace then skipWs cs else c :: cs

/-- Match a literal token, returning the rest of the input on success. -/
def eatLit : List Char → List Char → Option (List Char)
  | [], rest => some rest
  | _ :: _, [] => Option.none
  | l :: ls, c :: cs => if c = l then eatLit ls cs else Option.none

/-- First alternative that matches, in order (regex alternation). -/
def eatAlt : List (List Char) → List Char → Option (List Char)
  | [], _ => Option.none
  | a :: rest, s =>
      match eatLit a s with
      | some r => some r
      | Option.none => eatAlt rest s

/-- Numeric value of a digit run. -/
def digitsToNat (ds : List Char) : ℕ :=
  ds.foldl (fun acc c => acc * 10 + (c.toNat - 48)) 0

/-- The capture group of digits with an optional decimal fraction, as the
exact rational parseFloat would produce on such a string. -/
def parseNum (s : List Char) : Option (ℚ × List Char) :=
  let p := takeDigits s
  if p.1 = [] then Option.none
  else
    match p.2 with
    | [] => some ((digitsToNat p.1 : ℚ), p.2)
    | c :: r2 =>
        if c = '.' then
          let q := takeDigits r2
          if q.1 = [] then some ((digitsToNat p.1 : ℚ), p.2)
          else some ((digitsToNat p.1 : ℚ) + (digitsToNat q.1 : ℚ) / (10 ^ q.1.length : ℚ), q.2)
        else some ((digitsToNat p.1 : ℚ), p.2)

/-- The three amount patterns of detectCashSpending at one position: number,
whitespace, a unit word, whitespace, a preposition, whitespace, a bonus word. -/
def amountPatternAt (unitAlts : List (List Char)) (s : List Char) : Option ℚ :=
  match parseNum s with
  | Option.none => Option.none
  | some (n, r1) =>
    match eatAlt unitAlts (skipWs r1) with
    | Option.none => Option.none
    | some r3 =>
      match eatAlt [(String.data "in"), (String.data "on"), (String.data "for"),
                    (String.data "to")] (skipWs r3) with
      | Option.none => Option.none
      | some r5 =>
        match eatAlt [(String.data "employee"), (String.data "staff"),
                      (String.data "bonus"), (String.data "bonuses")] (skipWs r5) with
        | Option.none => Option.none
        | some _ => some n

/-- The optional (of whitespace) and (our whitespace) groups followed by the
cash-or-money word of the percentage patterns. -/
def ofOurCash (r5 : List Char) : Option Unit :=
  let r6 := match eatLit (String.data "of") r5 with
            | some ro => skipWs ro
            | Option.none => r5
  let r7 := match eatLit (String.data "our") r6 with
            | some ro => skipWs ro
            | Option.none => r6
  match eatAlt [(String.data "cash"), (String.data "money")] r7 with
  | some _ => some ()
  | Option.none => Option.none

/-- The numeric percentage pattern at one position: a spend-or-use-or-give
verb, whitespace, digits, a percent sign, then of-our-cash. -/
def pctPatternAt (s : List Char) : Option ℚ :=
  match eatAlt [(String.data "spend"), (String.data "use"), (String.data "give")] s with
  | Option.none => Option.none
  | some r1 =>
    match parseNum (skipWs r1) with
    | Option.none => Option.none
    | some (n, r3) =>
      match r3 with
      | [] => Option.none
      | c :: r4 =>
          if c = '%' then
            match ofOurCash (skipWs r4) with
            | some _ => some (n / 100)
            | Option.none => Option.none
          else Option.none

/-- The all-or-100-percent pattern at one position (no capture group, so the
source returns the fixed percentage 1). -/
def allPatternAt (s : List Char) : Option ℚ :=
  match eatAlt [(String.data "spend"), (String.data "use"), (String.data "give")] s with
  | Option.none => Option.none
  | some r1 =>
    match eatAlt [(String.data "all"), (String.data "100%")] (skipWs r1) with
    | Option.none => Option.none
    | some r2 =>
      match ofOurCash (skipWs r2) with
      | some _ => some 1
      | Option.none => Option.none

/-- Leftmost match: try the pattern at each successive start position. -/
def scanPattern (p : List Char → Option ℚ) : List Char → Option ℚ
  | [] => p []
  | c :: rest =>
      match p (c :: rest) with
      | some v => some v
      | Option.none => scanPattern p rest

/-- detectCashSpending from engine.ts: the five patterns tried in source
order over the lower-cased declaration; amounts scale by the unit multiplier,
percentage matches return the 0-to-1 fraction; no match returns 0 (the
evaluator-output argument is unused in the source as well). -/
def detectCashSpending (declaration : String) (_ev : EvaluatorOutput) : ℚ :=
  let lowerDecl := declaration.data.map Char.toLower
  match scanPattern (amountPatternAt [(String.data "million"), (String.data "m")]) lowerDecl with
  | some n => n * 1000000
  | Option.none =>
  match scanPattern (amountPatternAt [(String.data "thousand"), (String.data "k")]) lowerDecl with
  | some n => n * 1000
  | Option.none =>
  match scanPattern (amountPatternAt [(String.data "billion"), (String.data "b")]) lowerDecl with
  | some n => n * 1000000000
  | Option.none =>
  match scanPattern pctPatternAt lowerDecl with
  | some n => n
  | Option.none =>
  match scanPattern allPatternAt lowerDecl with
  | some n => n
  | Option.none => 0

/-! ## Turn resolver (engine.ts resolveTurn) -/

/-- getPrevBalanceFromState from engine.ts: prior snapshot balance when the
state carries one, else STARTING_BALANCE. -/
def getPrevBalanceFromState (state : State) : MiniBalanceSheet :=
  match state.financials with
  | some f => f.balance
  | Option.none => STARTING_BALANCE

/-- The driver-and-parameter derivation section of resolveTurn (engine.ts
lines 743 to 853), in source order: CEO signals scale units, price and the
scrap rate; working-capital day counts shift with service risk, backlog
pressure, supply fragility and a regulatory-probe event and are clamped; a
positive nonsense penalty trims units or price chosen by the parity of
hashStr over the declaration; event impact channels add scrap and limit
fulfillment (reusing the pre-clamp day count); finally units, price, cost
and capex are clamped to DRIVER_BOUNDS. Returns the drivers, the parameters
and the explainer tags pushed along the way. -/
def computeTurnDrivers (state : State) (declaration : String) (ev : EvaluatorOutput) :
    FinancialDrivers × FinancialParams × List ExplTag :=
  let m := sgn ev.signals.morale.dir * ev.signals.morale.strength
  let units1 := if m ≠ 0 then BASELINE_DRIVERS.units_sold * (1 + COEF.morale_to_units * m)
                else BASELINE_DRIVERS.units_sold
  let expl1 : List ExplTag :=
    if m ≠ 0 then
      [if m > 0 then ExplTag.moraleLiftedUnits else ExplTag.moraleSoftenedUnits]
    else []
  let c := sgn ev.signals.credibility.dir * ev.signals.credibility.strength
  let price1 := if c ≠ 0 then BASELINE_DRIVERS.avg_price * (1 + COEF.cred_to_price * c)
                else BASELINE_DRIVERS.avg_price
  let expl2 := expl1 ++
    (if c ≠ 0 then
      [if c > 0 then ExplTag.credSupportedPrice else ExplTag.credPressuredPrice]
     else [])
  let b := sgn ev.signals.backlog_pressure.dir * ev.signals.backlog_pressure.strength
  let units2 := if b ≠ 0 then units1 * (1 + COEF.backlog_to_units * b) else units1
  let expl3 := expl2 ++
    (if b ≠ 0 then
      [if b > 0 then ExplTag.backlogConstrainedUnits else ExplTag.backlogImprovedUnits]
     else [])
  let s := sgn ev.signals.service_risk.dir * ev.signals.service_risk.strength
  let scrap1 :=
    if s ≠ 0 then
      clampQ (FINANCE_PARAMS_DEFAULT.scrap_rate + COEF.service_to_returns * max 0 s) 0 0.25
    else FINANCE_PARAMS_DEFAULT.scrap_rate
  let expl4 := expl3 ++
    (if s ≠ 0 then
      [if s > 0 then ExplTag.serviceRaisedScrap else ExplTag.serviceReducedScrap]
     else [])
  let dsoD1 := BASELINE_DRIVERS.dsoDays
  let dpoD1 := BASELINE_DRIVERS.dpoDays
  let dioD1 := BASELINE_DRIVERS.dioDays
  let dsoD2 := if s > 0 then dsoD1 + COEF.service_to_dso_days * s else dsoD1
  let dioD2 := if b > 0 then dioD1 + COEF.backlog_to_dioDays * b else dioD1
  let dioD3 := if state.flags.supply_fragile then dioD2 + COEF.supplyFragile_to_dioDays else dioD2
  let expl5 := expl4 ++
    (if state.flags.supply_fragile then [ExplTag.supplyFragileInventoryDays] else [])
  let dsoD3 := if ev.event.event_type = "reg_probe" then dsoD2 + COEF.regProbe_to_dso else dsoD2
  let expl6 := expl5 ++
    (if ev.event.event_type = "reg_probe" then [ExplTag.regProbeReceivableDays] else [])
  let dsoClamped := clampQ dsoD3 DRIVER_BOUNDS.dso_min DRIVER_BOUNDS.dso_max
  let dpoClamped := clampQ dpoD1 DRIVER_BOUNDS.dpo_min DRIVER_BOUNDS.dpo_max
  let dioClamped := clampQ dioD3 DRIVER_BOUNDS.dio_min DRIVER_BOUNDS.dio_max
  let pen := max 0 ev.penalties.nonsense_penalty
  let splitToUnits := hashStr declaration % 2 = 0
  let units3 := if 0 < pen then (if splitToUnits then units2 * (1 - 0.01 * pen) else units2)
                else units2
  let price2 := if 0 < pen then (if splitToUnits then price1 else price1 * (1 - 0.01 * pen))
                else price1
  let expl7 := expl6 ++
    (if 0 < pen then
      [if splitToUnits then ExplTag.penaltyTrimmedUnits else ExplTag.penaltyTrimmedPrice]
     else [])
  let icS := ev.event.impact_channels.service_risk
  let scrap2 :=
    match icS with
    | some ch =>
        if ch.dir = Dir.up then clampQ (scrap1 + COEF.service_to_returns * ch.strength) 0 0.25
        else scrap1
    | Option.none => scrap1
  let expl8 := expl7 ++
    (match icS with
     | some ch => if ch.dir = Dir.up then [ExplTag.eventRaisedFriction] else []
     | Option.none => [])
  let icB := ev.event.impact_channels.backlog_pressure
  let units4 :=
    match icB with
    | some ch =>
        if ch.dir = Dir.up then units3 * (1 + COEF.backlog_to_units * ch.strength) else units3
    | Option.none => units3
  let dioFinal :=
    match icB with
    | some ch =>
        if ch.dir = Dir.up then
          clampQ (dioD3 + COEF.backlog_to_dioDays * ch.strength) DRIVER_BOUNDS.dio_min
            DRIVER_BOUNDS.dio_max
        else dioClamped
    | Option.none => dioClamped
  let expl9 := expl8 ++
    (match icB with
     | some ch => if ch.dir = Dir.up then [ExplTag.eventLimitedFulfillment] else []
     | Option.none => [])
  let unitsFinal := clampQ ((jround units4 : ℤ) : ℚ) DRIVER_BOUNDS.units_min DRIVER_BOUNDS.units_max
  let priceFinal := clampQ price2 DRIVER_BOUNDS.price_min DRIVER_BOUNDS.price_max
  let costFinal := clampQ BASELINE_DRIVERS.unit_cost DRIVER_BOUNDS.cost_min DRIVER_BOUNDS.cost_max
  let capexFinal :=
    if ev.signals.morale.dir = Dir.up ∧ ev.signals.backlog_pressure.dir ≠ Dir.up then
      clampQ (BASELINE_DRIVERS.capex_base * 1.05) DRIVER_BOUNDS.capex_min DRIVER_BOUNDS.capex_max
    else BASELINE_DRIVERS.capex_base
  ({ units_sold := unitsFinal, avg_price := priceFinal, unit_cost := costFinal,
     opex_base := BASELINE_DRIVERS.opex_base, capex_base := capexFinal,
     dsoDays := dsoClamped, dpoDays := dpoClamped, dioDays := dioFinal },
   { FINANCE_PARAMS_DEFAULT with scrap_rate := scrap2 },
   expl9)

/-- The finance input resolveTurn hands to computeFinancials: the previous
balance from the state (or STARTING_BALANCE), the derived drivers and
parameters, the fixed no-dividend policy, and no direct cash spending. -/
def turnFinanceInput (state : State) (declaration : String) (ev : EvaluatorOutput) :
    FinanceInput :=
  let dp := computeTurnDrivers state declaration ev
  { prev_balance := getPrevBalanceFromState state, drivers := dp.1, params := dp.2.1,
    policy := some { dividend := false, repay_debt := false },
    direct_cash_spending := Option.none }

/-- The spend amount resolveTurn derives from a positive detection result:
detections at most 1 are percentages of the pre-turn cash balance, larger
ones are absolute amounts. -/
def spendAmount (state : State) (declaration : String) (ev : EvaluatorOutput) : ℚ :=
  let cashSpending := detectCashSpending declaration ev
  if cashSpending ≤ 1 then (getPrevBalanceFromState state).cash * cashSpending
  else cashSpending

/-- JS [...moves.slice(-1), declaration].slice(-2): the last prior move (if
any) followed by the new declaration. -/
def recentMoves2 (moves : List String) (declaration : String) : List String :=
  match moves.getLast? with
  | some x => [x, declaration]
  | Option.none => [declaration]

/-- The new-state construction of resolveTurn: bump the turn number, apply
the clamped deltas with the domain clamps, and roll the recent-move window. -/
def nextState (moddedState : State) (declaration : String) (applied : AppliedDeltas) :
    State :=
  { moddedState with
    turn_no := moddedState.turn_no + 1,
    morale := max 0 (min 100 (moddedState.morale + applied.morale)),
    credibility := max 0 (min 100 (moddedState.credibility + applied.credibility)),
    backlog := max 0 (moddedState.backlog + applied.backlog),
    service := max 0 (min 100 (moddedState.service + applied.service)),
    share := max 0 (moddedState.share + applied.share),
    cash_runway := max 0 (moddedState.cash_runway + applied.cash_runway),
    recent_moves := recentMoves2 moddedState.recent_moves declaration }

/-- The per-metric raw deltas echoed in the turn record. -/
structure TurnDeltas where
  morale : ℚ
  credibility : ℚ
  backlog : ℚ
  service : ℚ
  share : ℚ
  cash_runway : ℚ
deriving DecidableEq, Repr

/-- TurnResult from contracts.ts (explainers hold the finance tag list; the
narrative and quote strings are carried verbatim except that apostrophes of
the source literals are dropped). -/
structure TurnResult where
  turn_no : ℤ
  state_before : State
  state_after : State
  declaration : String
  assessment : Assessment
  signals : Signals
  event : EvalEvent
  integrated : Integrated
  penalties : Penalties
  policy : PolicyBlock
  deltas : TurnDeltas
  applied_deltas : AppliedDeltas
  financials : FinancialSnapshot
  explainers : List ExplTag
  narrative : String
  quotes : List String
deriving DecidableEq, Repr

/-- resolveTurn from engine.ts (the caps argument is the engine instance
caps): context mods, raw deltas, clamped deltas, next state, driver
derivation, computeFinancials without direct spending, then the post-hoc
direct-cash mutation of the snapshot balance cash when a spending
declaration is detected, the state pnl refresh from the (possibly mutated)
snapshot, and the assembled turn record, whose raw backlog and service
deltas are read back under the keys backlog_pressure and service_risk. -/
def resolveTurn (caps : Caps) (state : State) (declaration : String)
    (ev : EvaluatorOutput) : TurnResult :=
  let moddedState := applyContextMods state
  let rawDeltas := applySignals ev moddedState caps
  let appliedDeltas := clampDeltas rawDeltas moddedState caps
  let newState := nextState moddedState declaration appliedDeltas
  let narrative := "Turn " ++ toString newState.turn_no ++
    " completed. The CEO declaration \"" ++ declaration ++ "\" has been processed."
  let quotes := ["CFO: We are monitoring the impact closely.",
                 "Chair: The board is aligned with this direction.",
                 "Ops: Execution is proceeding as planned."]
  let dp := computeTurnDrivers state declaration ev
  let financials0 := computeFinancials (turnFinanceInput state declaration ev)
  let cashSpending := detectCashSpending declaration ev
  let directCashSpending := spendAmount state declaration ev
  let financials1 :=
    if 0 < cashSpending then
      { financials0 with
        balance := { financials0.balance with
                     cash := max 0 (financials0.balance.cash - directCashSpending) } }
    else financials0
  let explainers1 :=
    if 0 < cashSpending then dp.2.2 ++ [ExplTag.directCash directCashSpending]
    else dp.2.2
  let newState2 :=
    { newState with
      pnl := some { revenue := financials1.pnl.revenue / 1000000,
                    cogs := financials1.pnl.cogs / 1000000,
                    gm_percent := financials1.pnl.gross_profit / financials1.pnl.revenue * 100,
                    opex := financials1.pnl.opex / 1000000,
                    net := financials1.pnl.net_income / 1000000,
                    cash := financials1.balance.cash / 1000000 } }
  { turn_no := newState2.turn_no,
    state_before := state,
    state_after := newState2,
    declaration := declaration,
    assessment := ev.assessment,
    signals := ev.signals,
    event := ev.event,
    integrated := ev.integrated,
    penalties := ev.penalties,
    policy := ev.policy,
    deltas := { morale := jsOr0 (dget rawDeltas "morale"),
                credibility := jsOr0 (dget rawDeltas "credibility"),
                backlog := jsOr0 (dget rawDeltas "backlog_pressure"),
                service := jsOr0 (dget rawDeltas "service_risk"),
                share := jsOr0 (dget rawDeltas "share"),
                cash_runway := jsOr0 (dget rawDeltas "cash_runway") },
    applied_deltas := appliedDeltas,
    financials := financials1,
    explainers := explainers1,
    narrative := narrative,
    quotes := quotes }

/-! ## Event generator (engine.ts generateEnhancedRngEvent)

The generator hashes JSON.stringify(state) + turnIndex. A runtime JS object
is an insertion-ordered map, and JSON.stringify serializes fields in that
order, so the state is modelled as an ordered JSON value (`Jx`) and the
typed reads of the generator are lookups over it. JSON numbers are
restricted to integers, for which JSON.stringify output is exactly the
plain integer-to-string rendering (no fraction-formatting semantics are
needed by any claim); object keys and string values are assumed free of
characters needing JSON escapes, as all schema strings are. -/

/-- Decimal digits of a natural number, most significant first (fuelled so
the recursion is structural; any fuel above the digit count is enough). -/
def natToCharsAux : ℕ → ℕ → List Char
  | 0, _ => []
  | fuel + 1, n =>
    if n < 10 then [Char.ofNat (48 + n)]
    else natToCharsAux fuel (n / 10) ++ [Char.ofNat (48 + n % 10)]

def natToChars (n : ℕ) : List Char := natToCharsAux (n + 1) n

/-- The JS number-to-string rendering restricted to integers: sign and
decimal digits (exact for every integer a state can hold). -/
def intToString (n : ℤ) : String :=
  if n < 0 then String.mk ('-' :: natToChars n.natAbs) else String.mk (natToChars n.natAbs)

/-- Ordered JSON value: the runtime shape of a state object. -/
inductive Jx where
  | num (n : ℤ)
  | str (s : String)
  | bool (b : Bool)
  | null
  | arr (elems : List Jx)
  | obj (fields : List (String × Jx))
deriving Repr

mutual

/-- JSON.stringify of an ordered JSON value (fields in supplied order). -/
def serJ : Jx → String
  | Jx.num n => intToString n
  | Jx.str s => "\"" ++ s ++ "\""
  | Jx.bool b => if b then "true" else "false"
  | Jx.null => "null"
  | Jx.arr xs => "[" ++ serList xs ++ "]"
  | Jx.obj fs => "\x7b" ++ serFields fs ++ "\x7d"

/-- Comma-joined serialization of array elements. -/
def serList : List Jx → String
  | [] => ""
  | [x] => serJ x
  | x :: y :: rest => serJ x ++ "," ++ serList (y :: rest)

/-- Comma-joined serialization of quoted key, colon, value fields. -/
def serFields : List (String × Jx) → String
  | [] => ""
  | [(k, v)] => "\"" ++ k ++ "\":" ++ serJ v
  | (k, v) :: f :: rest => "\"" ++ k ++ "\":" ++ serJ v ++ "," ++ serFields (f :: rest)

end

/-- Member read on an ordered JSON object field list. -/
def jget : List (String × Jx) → String → Option Jx
  | [], _ => Option.none
  | (k, v) :: rest, key => if k = key then some v else jget rest key

/-- Object.entries of a value expected to be an object (well-formed states
always carry an object here; the JS code would throw otherwise). -/
def jentries : Option Jx → List (String × Jx)
  | some (Jx.obj fs) => fs
  | _ => []

/-- A numeric JSON value, if the member exists and is a number. -/
def jnumOf : Option Jx → Option ℚ
  | some (Jx.num n) => some ((n : ℚ))
  | _ => Option.none

/-- Optional chaining o?.k. -/
def jgetIn (o : Option Jx) (k : String) : Option Jx :=
  match o with
  | some (Jx.obj fs) => jget fs k
  | _ => Option.none

/-- JS (a || b) over possibly-missing numbers: zero and missing both fall
back to b. -/
def jsOrQ (a b : Option ℚ) : Option ℚ :=
  match a with
  | some x => if x = 0 then b else some x
  | Option.none => b

/-- ToInt32 of JS: reduce modulo 2 to the 32 and reinterpret as signed. -/
def toInt32 (n : ℤ) : ℤ :=
  let m := n % 4294967296
  if m < 2147483648 then m else m - 4294967296

/-- One step of the engine hashString loop: hash = ((hash << 5) - hash) +
charCode, then the bitwise and-with-itself converts to a signed 32-bit
integer (toInt32). The shift is itself a 32-bit operation. -/
def hashStringStep (hash : ℤ) (c : Char) : ℤ :=
  toInt32 (toInt32 (hash * 32) - hash + c.toNat)

/-- The loop of hashString over the characters. -/
def hashStringAux : ℤ → List Char → ℤ
  | h, [] => h
  | h, c :: cs => hashStringAux (hashStringStep h c) cs

/-- hashString from engine.ts: the djb2-style 32-bit hash with a final
Math.abs (UTF-16 code units; code points and units agree on the ASCII
strings involved). -/
def hashString (s : String) : ℕ := (hashStringAux 0 s.data).natAbs

/-- The eight event categories, in the order of both the flags filter and
the categories array of the generator. -/
def flagKeysList : List String :=
  ["supply", "labor", "quality", "competition", "finance", "regulation", "tech", "weather"]

/-- tierFromRoll from engine.ts. -/
def tierFromRoll (roll : ℤ) : ℤ :=
  if roll ≤ 40 then 0 else if roll ≤ 80 then 1 else if roll ≤ 96 then 2 else 3

/-- Result record of applyShock. -/
structure ShockResult where
  name : String
  effects : EventEffects
  flag_bump : ℚ
  tail_risk_bump : ℚ
deriving DecidableEq, Repr

/-- Result record of applyReward. -/
structure RewardResult where
  name : String
  effects : EventEffects
deriving DecidableEq, Repr

/-- The all-zero effect record with empty notes. -/
def zeroEffects : EventEffects :=
  { revenue_delta := 0, cogs_delta := 0, opex_delta := 0, cash_delta := 0,
    share_delta := 0, nps_delta := 0, morale_delta := 0, backlog_delta := 0,
    notes := "" }

/-- applyShock from engine.ts: the category-by-tier shock effect table (the
state argument is unused in the source as well). Tier 0 is the named
near-miss placeholder; unmatched tiers fall through with empty name and
zero effects. -/
def applyShock (cat : String) (tier : ℤ) (_state : List (String × Jx)) : ShockResult :=
  if tier = 0 then
    { name := "Thin ice (" ++ cat ++ ")",
      effects := { zeroEffects with notes := "No immediate hit, but jitters build." },
      flag_bump := 0.02, tail_risk_bump := 1 }
  else if cat = "supply" then
    if tier = 1 then
      { name := "Port delay on batteries",
        effects := { zeroEffects with revenue_delta := -0.6, cogs_delta := 0.1, backlog_delta := 1200, morale_delta := -2 },
        flag_bump := 0.08, tail_risk_bump := 5 }
    else if tier = 2 then
      { name := "Tier-2 vendor outage (motors)",
        effects := { zeroEffects with revenue_delta := -1.5, cogs_delta := 0.4, backlog_delta := 3000, morale_delta := -4 },
        flag_bump := 0.15, tail_risk_bump := 10 }
    else if tier = 3 then
      { name := "Factory shutdown (safety inspection)",
        effects := { zeroEffects with revenue_delta := -3.0, cogs_delta := 0.8, backlog_delta := 6000, morale_delta := -8 },
        flag_bump := 0.25, tail_risk_bump := 15 }
    else { name := "", effects := zeroEffects, flag_bump := 0, tail_risk_bump := 0 }
  else if cat = "labor" then
    if tier = 1 then
      { name := "Skilled assembler attrition tick up",
        effects := { zeroEffects with opex_delta := 0.1, cogs_delta := 0.2, morale_delta := -3, backlog_delta := 500 },
        flag_bump := 0.07, tail_risk_bump := 5 }
    else if tier = 2 then
      { name := "Shift walkouts",
        effects := { zeroEffects with revenue_delta := -1.0, cogs_delta := 0.3, morale_delta := -8, backlog_delta := 2500 },
        flag_bump := 0.12, tail_risk_bump := 10 }
    else if tier = 3 then
      { name := "Union strike notice",
        effects := { zeroEffects with revenue_delta := -2.0, opex_delta := 0.3, morale_delta := -12, backlog_delta := 5000 },
        flag_bump := 0.2, tail_risk_bump := 15 }
    else { name := "", effects := zeroEffects, flag_bump := 0, tail_risk_bump := 0 }
  else if cat = "quality" then
    if tier = 1 then
      { name := "Spike in warranty claims (starter cord)",
        effects := { zeroEffects with opex_delta := 0.2, nps_delta := -4, share_delta := -0.2 },
        flag_bump := 0.06, tail_risk_bump := 4 }
    else if tier = 2 then
      { name := "Limited recall (blade hub)",
        effects := { zeroEffects with revenue_delta := -0.7, opex_delta := 0.6, nps_delta := -8, share_delta := -0.6 },
        flag_bump := 0.12, tail_risk_bump := 9 }
    else if tier = 3 then
      { name := "Major recall (battery fire risk)",
        effects := { zeroEffects with revenue_delta := -2.5, opex_delta := 1.2, nps_delta := -15, share_delta := -1.5 },
        flag_bump := 0.25, tail_risk_bump := 16 }
    else { name := "", effects := zeroEffects, flag_bump := 0, tail_risk_bump := 0 }
  else if cat = "competition" then
    if tier = 1 then
      { name := "Rival promo blitz at big-box",
        effects := { zeroEffects with share_delta := -0.4, revenue_delta := -0.5 },
        flag_bump := 0.06, tail_risk_bump := 5 }
    else if tier = 2 then
      { name := "Competitor exclusive shelf at key retailer",
        effects := { zeroEffects with share_delta := -0.9, revenue_delta := -1.2 },
        flag_bump := 0.1, tail_risk_bump := 9 }
    else if tier = 3 then
      { name := "New entrant undercuts with ultra-low price",
        effects := { zeroEffects with share_delta := -1.5, revenue_delta := -2.0 },
        flag_bump := 0.16, tail_risk_bump := 12 }
    else { name := "", effects := zeroEffects, flag_bump := 0, tail_risk_bump := 0 }
  else if cat = "finance" then
    if tier = 1 then
      { name := "Credit insurer tightens terms",
        effects := { zeroEffects with cash_delta := -0.5, opex_delta := 0.1 },
        flag_bump := 0.05, tail_risk_bump := 6 }
    else if tier = 2 then
      { name := "Working capital squeeze",
        effects := { zeroEffects with cash_delta := -1.0, opex_delta := 0.2, revenue_delta := -0.4 },
        flag_bump := 0.1, tail_risk_bump := 10 }
    else if tier = 3 then
      { name := "Credit line cap reduced",
        effects := { zeroEffects with cash_delta := -2.0, revenue_delta := -0.8 },
        flag_bump := 0.15, tail_risk_bump := 14 }
    else { name := "", effects := zeroEffects, flag_bump := 0, tail_risk_bump := 0 }
  else if cat = "regulation" then
    if tier = 1 then
      { name := "Noise standard scrutiny",
        effects := { zeroEffects with opex_delta := 0.1 },
        flag_bump := 0.04, tail_risk_bump := 5 }
    else if tier = 2 then
      { name := "New emissions testing backlog",
        effects := { zeroEffects with revenue_delta := -0.6, opex_delta := 0.2 },
        flag_bump := 0.08, tail_risk_bump := 10 }
    else if tier = 3 then
      { name := "Sudden compliance rule change",
        effects := { zeroEffects with revenue_delta := -1.5, opex_delta := 0.7 },
        flag_bump := 0.15, tail_risk_bump := 15 }
    else { name := "", effects := zeroEffects, flag_bump := 0, tail_risk_bump := 0 }
  else if cat = "tech" then
    if tier = 1 then
      { name := "Firmware bug causing false error codes",
        effects := { zeroEffects with opex_delta := 0.2, nps_delta := -3 },
        flag_bump := 0.06, tail_risk_bump := 6 }
    else if tier = 2 then
      { name := "Connectivity outage in smart models",
        effects := { zeroEffects with revenue_delta := -0.5, opex_delta := 0.3, nps_delta := -6 },
        flag_bump := 0.1, tail_risk_bump := 10 }
    else if tier = 3 then
      { name := "Cyber incident at supplier",
        effects := { zeroEffects with revenue_delta := -1.5, cash_delta := -0.5, opex_delta := 0.4 },
        flag_bump := 0.18, tail_risk_bump := 14 }
    else { name := "", effects := zeroEffects, flag_bump := 0, tail_risk_bump := 0 }
  else if cat = "weather" then
    if tier = 1 then
      { name := "Mild week reduces weekend traffic",
        effects := { zeroEffects with revenue_delta := -0.3 },
        flag_bump := 0.04, tail_risk_bump := 3 }
    else if tier = 2 then
      { name := "Unseasonal rains dampen sales",
        effects := { zeroEffects with revenue_delta := -0.9 },
        flag_bump := 0.08, tail_risk_bump := 7 }
    else if tier = 3 then
      { name := "Storm disrupts regional distribution",
        effects := { zeroEffects with revenue_delta := -1.6, backlog_delta := 1000 },
        flag_bump := 0.12, tail_risk_bump := 10 }
    else { name := "", effects := zeroEffects, flag_bump := 0, tail_risk_bump := 0 }
  else { name := "", effects := zeroEffects, flag_bump := 0, tail_risk_bump := 0 }

/-- applyReward from engine.ts: the category-by-tier reward effect table
(computed each turn but not surfaced as the active event). -/
def applyReward (cat : String) (tier : ℤ) : RewardResult :=
  if tier = 0 then
    { name := "Quiet tailwind (" ++ cat ++ ")",
      effects := { zeroEffects with notes := "No obvious bump, but teams feel a breeze." } }
  else if cat = "supply" then
    if tier = 1 then
      { name := "Vendor early shipment",
        effects := { zeroEffects with revenue_delta := 0.4, backlog_delta := -800 } }
    else if tier = 2 then
      { name := "Bulk buy discount",
        effects := { zeroEffects with cogs_delta := -0.4, cash_delta := -0.4 } }
    else if tier = 3 then
      { name := "Windfall allocation ahead of rivals",
        effects := { zeroEffects with revenue_delta := 1.2, cogs_delta := -0.3, backlog_delta := -1500 } }
    else { name := "", effects := zeroEffects }
  else if cat = "labor" then
    if tier = 1 then
      { name := "Productivity surge",
        effects := { zeroEffects with cogs_delta := -0.2, morale_delta := 3 } }
    else if tier = 2 then
      { name := "Referral hiring wave",
        effects := { zeroEffects with opex_delta := 0.1, backlog_delta := -1200, morale_delta := 4 } }
    else if tier = 3 then
      { name := "Breakthrough training effect",
        effects := { zeroEffects with cogs_delta := -0.5, backlog_delta := -2000, morale_delta := 6 } }
    else { name := "", effects := zeroEffects }
  else if cat = "quality" then
    if tier = 1 then
      { name := "Glowing third-party review",
        effects := { zeroEffects with share_delta := 0.3, nps_delta := 4 } }
    else if tier = 2 then
      { name := "Warranty claims drop",
        effects := { zeroEffects with opex_delta := -0.3, nps_delta := 5 } }
    else if tier = 3 then
      { name := "Industry award for reliability",
        effects := { zeroEffects with share_delta := 0.8, nps_delta := 8 } }
    else { name := "", effects := zeroEffects }
  else if cat = "competition" then
    if tier = 1 then
      { name := "Rival stumbles on logistics",
        effects := { zeroEffects with share_delta := 0.3, revenue_delta := 0.4 } }
    else if tier = 2 then
      { name := "Exclusive endcap placement",
        effects := { zeroEffects with share_delta := 0.7, revenue_delta := 0.9 } }
    else if tier = 3 then
      { name := "Retailer co-op funds bonus",
        effects := { zeroEffects with opex_delta := -0.5, revenue_delta := 1.0, cash_delta := 0.3 } }
    else { name := "", effects := zeroEffects }
  else if cat = "finance" then
    if tier = 1 then
      { name := "FX tailwind", effects := { zeroEffects with revenue_delta := 0.3 } }
    else if tier = 2 then
      { name := "Tax credit approval", effects := { zeroEffects with cash_delta := 0.8 } }
    else if tier = 3 then
      { name := "Favorable credit facility",
        effects := { zeroEffects with cash_delta := 1.5 } }
    else { name := "", effects := zeroEffects }
  else if cat = "regulation" then
    if tier = 1 then
      { name := "Grant for electrification",
        effects := { zeroEffects with cash_delta := 0.5 } }
    else if tier = 2 then
      { name := "Certification fast-track",
        effects := { zeroEffects with revenue_delta := 0.6, backlog_delta := -800 } }
    else if tier = 3 then
      { name := "Tariff relief", effects := { zeroEffects with cogs_delta := -0.6 } }
    else { name := "", effects := zeroEffects }
  else if cat = "tech" then
    if tier = 1 then
      { name := "Firmware optimization",
        effects := { zeroEffects with cogs_delta := -0.1, nps_delta := 2 } }
    else if tier = 2 then
      { name := "Manufacturing automation tweak",
        effects := { zeroEffects with cogs_delta := -0.3 } }
    else if tier = 3 then
      { name := "Breakthrough battery yield",
        effects := { zeroEffects with revenue_delta := 0.8, cogs_delta := -0.4 } }
    else { name := "", effects := zeroEffects }
  else if cat = "weather" then
    if tier = 1 then
      { name := "Sunny weekend surge", effects := { zeroEffects with revenue_delta := 0.3 } }
    else if tier = 2 then
      { name := "Early growth season", effects := { zeroEffects with revenue_delta := 0.8 } }
    else if tier = 3 then
      { name := "Prolonged mowing season",
        effects := { zeroEffects with revenue_delta := 1.2 } }
    else { name := "", effects := zeroEffects }
  else { name := "", effects := zeroEffects }

/-- generateHints from engine.ts: a pressure hint when the numeric flag of
the drawn category exceeds 0.1, then the four truthiness-guarded state
hints. -/
def generateHints (fields : List (String × Jx)) (category : String) (_tier : ℤ) :
    List String :=
  let h1 :=
    match jgetIn (jget fields "flags") category with
    | some (Jx.num n) => if ((n : ℚ)) > 0.1 then [category ++ "_pressure"] else []
    | _ => []
  let h2 :=
    match jnumOf (jgetIn (jget fields "kpis") "morale") with
    | some m => if m ≠ 0 ∧ m < 60 then ["morale_low"] else []
    | Option.none => []
  let h3 :=
    match jnumOf (jgetIn (jget fields "kpis") "backlog_units") with
    | some b => if b ≠ 0 ∧ b > 8000 then ["backlog_high"] else []
    | Option.none => []
  let h4 :=
    match jnumOf (jgetIn (jget fields "pnl") "cash") with
    | some c => if c ≠ 0 ∧ c < 5 then ["cash_tight"] else []
    | Option.none => []
  let h5 :=
    match jnumOf (jget fields "tail_risk") with
    | some t => if t ≠ 0 ∧ t > 20 then ["tail_risk_elevated"] else []
    | Option.none => []
  h1 ++ h2 ++ h3 ++ h4 ++ h5

/-- The shock-pressure computation of generateEnhancedRngEvent: 20 times the
sum of the eight numeric category pressures (rounded), plus 5 for each of
low morale, high backlog and tight cash (with the JS truthiness fallbacks of
the source reads), capped at 20. -/
def shockPressureOf (fields : List (String × Jx)) : ℤ :=
  let flagSum : ℚ :=
    ((jentries (jget fields "flags")).filter
        (fun kv => flagKeysList.contains kv.1)).foldl
      (fun acc kv => acc + (match kv.2 with | Jx.num n => ((n : ℚ)) | _ => 0)) 0
  let sp0 := jround (flagSum * 20)
  let morale := jsOrQ (jnumOf (jgetIn (jget fields "kpis") "morale"))
    (jnumOf (jget fields "morale"))
  let backlog := jsOrQ (jnumOf (jgetIn (jget fields "kpis") "backlog_units"))
    (jnumOf (jget fields "backlog"))
  let cash := jsOrQ (jnumOf (jgetIn (jget fields "pnl") "cash"))
    ((jnumOf (jget fields "cash_runway")).map (fun r => r * 0.5))
  let sp1 := sp0 + (match morale with
    | some m => if m < 60 then 5 else 0
    | Option.none => 0)
  let sp2 := sp1 + (match backlog with
    | some b => if b > 8000 then 5 else 0
    | Option.none => 0)
  let sp3 := sp2 + (match cash with
    | some c => if c < 5 then 5 else 0
    | Option.none => 0)
  min sp3 20

/-- The RngEvent packet of contracts.ts (roll in 1..100, tier rendered as a
string as the source does with toString). -/
structure RngEvent where
  roll : ℕ
  event_type : String
  tier : String
  name : String
  effects : EventEffects
  flag_bump : ℚ
  tail_risk_bump : ℚ
  hints : List String
deriving DecidableEq, Repr

/-- generateEnhancedRngEvent from engine.ts over the ordered JSON state: the
seed is hashString of JSON.stringify(state) concatenated with the turn
index, the shock and reward rolls and categories derive from it, the shock
table supplies the surfaced event, and the reward draw is computed and
dropped as in the source. -/
def generateEnhancedRngEvent (fields : List (String × Jx)) (turnIndex : ℤ) : RngEvent :=
  let shockPressure := shockPressureOf fields
  let seed := hashString (serJ (Jx.obj fields) ++ intToString turnIndex)
  let shockRollRaw := seed % 100 + 1
  let rewardRollRaw := (seed * 7) % 100 + 1
  let rollWithPressure := min 100 ((shockRollRaw : ℤ) + shockPressure)
  let shockTier := tierFromRoll rollWithPressure
  let rewardTier := tierFromRoll ((rewardRollRaw : ℤ))
  let shockCat := flagKeysList.getD (seed % 8) ""
  let rewardCat := flagKeysList.getD ((seed * 3) % 8) ""
  let shockEvent := applyShock shockCat shockTier fields
  let _rewardEvent := applyReward rewardCat rewardTier
  { roll := shockRollRaw,
    event_type := shockCat,
    tier := intToString shockTier,
    name := shockEvent.name,
    effects := shockEvent.effects,
    flag_bump := shockEvent.flag_bump,
    tail_risk_bump := shockEvent.tail_risk_bump,
    hints := generateHints fields shockCat shockTier }

/-- generateRngEvent from engine.ts: the legacy entry point delegates to the
enhanced generator. -/
def generateRngEvent (fields : List (String × Jx)) (turnIndex : ℤ) : RngEvent :=
  generateEnhancedRngEvent fields turnIndex

/-! ## Concrete fixtures for the counterexamples and witnesses -/

/-- The pnl sub-object of the counterexample state. -/
def cexPnl : Jx :=
  Jx.obj [("revenue", Jx.num 12), ("cogs", Jx.num 7), ("gm_percent", Jx.num 40),
    ("opex", Jx.num 4), ("net", Jx.num 1), ("cash", Jx.num 7)]

/-- The kpis sub-object of the counterexample state. -/
def cexKpis : Jx :=
  Jx.obj [("share_percent", Jx.num 8), ("service_nps", Jx.num 74),
    ("morale", Jx.num 66), ("backlog_units", Jx.num 6000)]

/-- The event sub-object of the counterexample state. -/
def cexEvent : Jx :=
  Jx.obj [("category", Jx.str "market"), ("tier", Jx.str "low")]

/-- The flags sub-object of the counterexample state. -/
def cexFlags : Jx :=
  Jx.obj [("supply_fragile", Jx.bool false), ("labor_tense", Jx.bool false),
    ("quality_watch", Jx.bool false), ("tail_risk", Jx.bool false),
    ("supply", Jx.num 0), ("labor", Jx.num 0), ("quality", Jx.num 0),
    ("competition", Jx.num 0), ("finance", Jx.num 0), ("regulation", Jx.num 0),
    ("tech", Jx.num 0), ("weather", Jx.num 0)]

/-- The pressures sub-object of the counterexample state. -/
def cexPressures : Jx := Jx.obj [("margin_push", Jx.bool false)]

/-- The headroom sub-object of the counterexample state. -/
def cexHeadroom : Jx :=
  Jx.obj [("ot_pct", Jx.num 0), ("temps_allowed", Jx.bool false)]

/-- Fields 3 to 11 of the counterexample state (shared by both orderings). -/
def cexTailA : List (String × Jx) :=
  [("pnl", cexPnl),
   ("kpis", cexKpis),
   ("event", cexEvent),
   ("morale", Jx.num 75),
   ("credibility", Jx.num 80),
   ("backlog", Jx.num 1000),
   ("service", Jx.num 85),
   ("share", Jx.num 100),
   ("cash_runway", Jx.num 18)]

/-- Fields 12 to 22 of the counterexample state (shared by both orderings). -/
def cexTailB : List (String × Jx) :=
  [("flags", cexFlags),
   ("pressures", cexPressures),
   ("headroom", cexHeadroom),
   ("recent_moves", Jx.arr []),
   ("tail_risk", Jx.num 5),
   ("shock_decay", Jx.num 0),
   ("reward_decay", Jx.num 1),
   ("ceo_credibility", Jx.num 72),
   ("active_shocks", Jx.arr []),
   ("active_rewards", Jx.arr []),
   ("notes", Jx.arr [])]

/-- A schema-complete runtime state object with integer field values, in
the field order of the state constructor: the hash input for the event
generator is its JSON serialization. -/
def cexStateFields1 : List (String × Jx) :=
  ("turn_no", Jx.num 0) :: ("period", Jx.str "Sep 2025") :: (cexTailA ++ cexTailB)

/-- The same state as a field-value map, with the first two fields supplied
in the opposite order (a JS object built with period before turn_no). -/
def cexStateFields2 : List (String × Jx) :=
  ("period", Jx.str "Sep 2025") :: ("turn_no", Jx.num 0) :: (cexTailA ++ cexTailB)

/-- JSON.stringify of the first state with the turn index appended:
the hash input, in pieces small enough to evaluate the hash chunk by
chunk. -/
def cexJson1chunks : String :=
  "\x7b\"turn_no\":0,\"period\":\"S" ++
  "ep 2025\",\"pnl\":\x7b\"revenue" ++
  "\":12,\"cogs\":7,\"gm_percen" ++
  "t\":40,\"opex\":4,\"net\":1,\"" ++
  "cash\":7\x7d,\"kpis\":\x7b\"share_" ++
  "percent\":8,\"service_nps\"" ++
  ":74,\"morale\":66,\"backlog" ++
  "_units\":6000\x7d,\"event\":\x7b\"" ++
  "category\":\"market\",\"tier" ++
  "\":\"low\"\x7d,\"morale\":75,\"cr" ++
  "edibility\":80,\"backlog\":" ++
  "1000,\"service\":85,\"share" ++
  "\":100,\"cash_runway\":18,\"" ++
  "flags\":\x7b\"supply_fragile\"" ++
  ":false,\"labor_tense\":fal" ++
  "se,\"quality_watch\":false" ++
  ",\"tail_risk\":false,\"supp" ++
  "ly\":0,\"labor\":0,\"quality" ++
  "\":0,\"competition\":0,\"fin" ++
  "ance\":0,\"regulation\":0,\"" ++
  "tech\":0,\"weather\":0\x7d,\"pr" ++
  "essures\":\x7b\"margin_push\":" ++
  "false\x7d,\"headroom\":\x7b\"ot_p" ++
  "ct\":0,\"temps_allowed\":fa" ++
  "lse\x7d,\"recent_moves\":[],\"" ++
  "tail_risk\":5,\"shock_deca" ++
  "y\":0,\"reward_decay\":1,\"c" ++
  "eo_credibility\":72,\"acti" ++
  "ve_shocks\":[],\"active_re" ++
  "wards\":[],\"notes\":[]\x7d0"

/-- JSON.stringify of the reordered state with the turn index appended:
the hash input, in pieces small enough to evaluate the hash chunk by
chunk. -/
def cexJson2chunks : String :=
  "\x7b\"period\":\"Sep 2025\",\"tu" ++
  "rn_no\":0,\"pnl\":\x7b\"revenue" ++
  "\":12,\"cogs\":7,\"gm_percen" ++
  "t\":40,\"opex\":4,\"net\":1,\"" ++
  "cash\":7\x7d,\"kpis\":\x7b\"share_" ++
  "percent\":8,\"service_nps\"" ++
  ":74,\"morale\":66,\"backlog" ++
  "_units\":6000\x7d,\"event\":\x7b\"" ++
  "category\":\"market\",\"tier" ++
  "\":\"low\"\x7d,\"morale\":75,\"cr" ++
  "edibility\":80,\"backlog\":" ++
  "1000,\"service\":85,\"share" ++
  "\":100,\"cash_runway\":18,\"" ++
  "flags\":\x7b\"supply_fragile\"" ++
  ":false,\"labor_tense\":fal" ++
  "se,\"quality_watch\":false" ++
  ",\"tail_risk\":false,\"supp" ++
  "ly\":0,\"labor\":0,\"quality" ++
  "\":0,\"competition\":0,\"fin" ++
  "ance\":0,\"regulation\":0,\"" ++
  "tech\":0,\"weather\":0\x7d,\"pr" ++
  "essures\":\x7b\"margin_push\":" ++
  "false\x7d,\"headroom\":\x7b\"ot_p" ++
  "ct\":0,\"temps_allowed\":fa" ++
  "lse\x7d,\"recent_moves\":[],\"" ++
  "tail_risk\":5,\"shock_deca" ++
  "y\":0,\"reward_decay\":1,\"c" ++
  "eo_credibility\":72,\"acti" ++
  "ve_shocks\":[],\"active_re" ++
  "wards\":[],\"notes\":[]\x7d0"

/-- The base state of the determinism test fixtures (no kpis, pnl or prior
financials; neutral flags with the default pressure values). -/
def baseState : State :=
  { turn_no := 1, period := Option.none, pnl := Option.none, kpis := Option.none,
    event := { category := "market", tier := "medium" },
    morale := 75, credibility := 80, backlog := 1000, service := 85,
    share := 100, cash_runway := 18,
    flags := { supply_fragile := false, labor_tense := false, quality_watch := false,
               tail_risk := false, supply := 0.1, labor := 0.05, quality := 0,
               competition := 0.1, finance := 0, regulation := 0, tech := 0.05,
               weather := 0.05 },
    pressures := { margin_push := false },
    headroom := { ot_pct := 0, temps_allowed := false },
    recent_moves := [], tail_risk := Option.none, shock_decay := Option.none,
    reward_decay := Option.none, ceo_credibility := Option.none,
    active_shocks := Option.none, active_rewards := Option.none,
    notes := Option.none, financials := Option.none }

/-- A neutral evaluator output: all signals none, no event channels, no
penalty. -/
def neutralEval : EvaluatorOutput :=
  { assessment := { intent := ["test"], targets := ["test"], tone := "neutral",
                    fit_reasons := ["test"] },
    signals := { morale := { dir := Dir.none, strength := 0 },
                 credibility := { dir := Dir.none, strength := 0 },
                 backlog_pressure := { dir := Dir.none, strength := 0 },
                 service_risk := { dir := Dir.none, strength := 0 } },
    event := { roll := 50, event_type := "none",
               impact_channels := { morale := Option.none, credibility := Option.none,
                                    backlog_pressure := Option.none,
                                    service_risk := Option.none },
               severity_note := "No event" },
    integrated := { synergy := Synergy.neutral, narrative_hook := "Test" },
    penalties := { nonsense_penalty := 0 },
    policy := { oob := false, violations := [] },
    rationale := "Test" }

/-- An evaluator output pushing every signal up with strength 2, twice the
declared maximum, to exercise clamping of out-of-range strengths. -/
def extremeEval : EvaluatorOutput :=
  { neutralEval with
    signals := { morale := { dir := Dir.up, strength := 2 },
                 credibility := { dir := Dir.up, strength := 2 },
                 backlog_pressure := { dir := Dir.up, strength := 2 },
                 service_risk := { dir := Dir.up, strength := 2 } } }

/-- Concrete finance input showing that a negative minimum cash buffer lets
the zero floor on closing cash break the reported cash-reconciliation
equation: zero prior balances and drivers except 500000 of opex, with a
minimum cash buffer of minus one million. -/
def negBufferFinanceInput : FinanceInput :=
  { prev_balance := { cash := 0, ar := 0, inventory := 0, ppe := 0, ap := 0,
                      debt := 0, retained_earnings := 0, other_equity := 0 },
    drivers := { units_sold := 0, avg_price := 0, unit_cost := 0,
                 opex_base := 500000, capex_base := 0, dsoDays := 0,
                 dpoDays := 0, dioDays := 0 },
    params := { period_days := 30, min_cash_buffer := -1000000,
                depreciation_life_years := 5, price_to_units := 0,
                morale_to_units := 0, credibility_to_price := 0, scrap_rate := 0 },
    policy := Option.none,
    direct_cash_spending := Option.none }

/-! ## Derived predicates used by the theorems -/

/-- Assets side of the balance identity, cash plus receivables plus
inventory plus fixed assets. -/
def assetsOf (b : MiniBalanceSheet) : ℚ := b.cash + b.ar + b.inventory + b.ppe

/-- Liabilities-plus-equity side: payables plus debt plus other equity plus
retained earnings. -/
def liabEqOf (b : MiniBalanceSheet) : ℚ :=
  b.ap + b.debt + b.other_equity + b.retained_earnings

/-- All four caps nonnegative. -/
def CapsNonneg (caps : Caps) : Prop :=
  0 ≤ caps.morale ∧ 0 ≤ caps.credibility ∧ 0 ≤ caps.service_risk ∧ 0 ≤ caps.backlog_pressure

/-- The per-metric cap bounds of the applied-delta record. -/
def DeltasBounded (a : AppliedDeltas) (caps : Caps) : Prop :=
  |a.morale| ≤ caps.morale ∧ |a.credibility| ≤ caps.credibility ∧
  |a.service| ≤ caps.service_risk ∧ |a.backlog| ≤ caps.backlog_pressure * 250 ∧
  |a.share| ≤ caps.backlog_pressure ∧ |a.cash_runway| ≤ caps.backlog_pressure

/-- The finance input resolveTurn builds for the neutral fixture. -/
def neutralTurnInput : FinanceInput :=
  { prev_balance := STARTING_BALANCE, drivers := BASELINE_DRIVERS,
    params := FINANCE_PARAMS_DEFAULT,
    policy := some { dividend := false, repay_debt := false },
    direct_cash_spending := Option.none }

/-! ## Theorems -/

theorem natToCharsAux_eq (f1 f2 n : ℕ) (h1 : n < 10 ^ (f1 + 1)) (h2 : n < 10 ^ (f2 + 1)) :
    natToCharsAux (f1 + 1) n = natToCharsAux (f2 + 1) n := by
  induction f1 generalizing f2 n with
  | zero =>
    have hn : n < 10 := by simpa using h1
    simp [natToCharsAux, if_pos hn]
  | succ g ih =>
    by_cases hn : n < 10
    · simp [natToCharsAux, if_pos hn]
    · cases f2 with
      | zero => exact absurd (by simpa using h2) hn
      | succ k =>
        have hd1 : n / 10 < 10 ^ (g + 1) := by
          apply Nat.div_lt_of_lt_mul
          calc n < 10 ^ (g + 1 + 1) := h1
          _ = 10 * 10 ^ (g + 1) := by ring
        have hd2 : n / 10 < 10 ^ (k + 1) := by
          apply Nat.div_lt_of_lt_mul
          calc n < 10 ^ (k + 1 + 1) := h2
          _ = 10 * 10 ^ (k + 1) := by ring
        show natToCharsAux (g + 1 + 1) n = natToCharsAux (k + 1 + 1) n
        rw [show natToCharsAux (g + 1 + 1) n =
            (if n < 10 then [Char.ofNat (48 + n)]
             else natToCharsAux (g + 1) (n / 10) ++ [Char.ofNat (48 + n % 10)]) from rfl,
          show natToCharsAux (k + 1 + 1) n =
            (if n < 10 then [Char.ofNat (48 + n)]
             else natToCharsAux (k + 1) (n / 10) ++ [Char.ofNat (48 + n % 10)]) from rfl,
          if_neg hn, if_neg hn, ih k (n / 10) hd1 hd2]

theorem natToChars_fuel (n : ℕ) (h : n < 10 ^ 15) : natToChars n = natToCharsAux 15 n := by
  have hx : n < 10 ^ (n + 1) :=
    lt_of_lt_of_le (Nat.lt_pow_self (by norm_num) n) (Nat.pow_le_pow_right (by norm_num) (Nat.le_succ n))
  exact natToCharsAux_eq n 14 n hx h

/-! Serialization evaluation helpers -/

theorem serJ_num (n : ℤ) : serJ (Jx.num n) = intToString n := rfl

theorem serJ_str (s : String) : serJ (Jx.str s) = "\"" ++ s ++ "\"" := rfl

theorem serJ_false : serJ (Jx.bool false) = "false" := rfl

theorem serJ_arrNil : serJ (Jx.arr []) = "[]" := rfl

theorem serJ_obj (fs : List (String × Jx)) :
    serJ (Jx.obj fs) = "\x7b" ++ serFields fs ++ "\x7d" := rfl

theorem serFields_cons_ne (k : String) (v : Jx) (l : List (String × Jx)) (h : l ≠ []) :
    serFields ((k, v) :: l) = "\"" ++ k ++ "\":" ++ serJ v ++ "," ++ serFields l := by
  cases l with
  | nil => exact absurd rfl h
  | cons f rest => rfl

theorem serFields_append (l1 l2 : List (String × Jx)) (h1 : l1 ≠ []) (h2 : l2 ≠ []) :
    serFields (l1 ++ l2) = serFields l1 ++ "," ++ serFields l2 := by
  induction l1 with
  | nil => exact absurd rfl h1
  | cons a t ih =>
    obtain ⟨k, v⟩ := a
    cases t with
    | nil =>
      rw [List.cons_append, List.nil_append, serFields_cons_ne k v l2 h2]
      rfl
    | cons b t2 =>
      rw [List.cons_append, serFields_cons_ne k v ((b :: t2) ++ l2) (by simp),
        ih (by simp), serFields_cons_ne k v (b :: t2) (by simp)]
      simp [String.append_assoc]

set_option maxRecDepth 2000 in
theorem serPnl : serJ cexPnl = "\x7b\"revenue\":12,\"cogs\":7,\"gm_percent\":40,\"opex\":4,\"net\":1,\"cash\":7\x7d" := by
  simp only [cexPnl, serJ_obj, serFields, serJ_num, serJ_str, serJ_false, serJ_arrNil, intToString, natToChars_fuel, natToCharsAux, Nat.reducePow,
    Int.reduceLT, Int.reduceAbs, Nat.reduceDiv, Nat.reduceMod, Nat.reduceAdd, Nat.reduceLT,
    String.reduceMk, Char.reduceOfNatAux, reduceIte, String.reduceAppend,
    List.cons_append, List.nil_append]

set_option maxRecDepth 2000 in
theorem serKpis : serJ cexKpis = "\x7b\"share_percent\":8,\"service_nps\":74,\"morale\":66,\"backlog_units\":6000\x7d" := by
  simp only [cexKpis, serJ_obj, serFields, serJ_num, serJ_str, serJ_false, serJ_arrNil, intToString, natToChars_fuel, natToCharsAux, Nat.reducePow,
    Int.reduceLT, Int.reduceAbs, Nat.reduceDiv, Nat.reduceMod, Nat.reduceAdd, Nat.reduceLT,
    String.reduceMk, Char.reduceOfNatAux, reduceIte, String.reduceAppend,
    List.cons_append, List.nil_append]

set_option maxRecDepth 2000 in
theorem serEvent : serJ cexEvent = "\x7b\"category\":\"market\",\"tier\":\"low\"\x7d" := by
  simp only [cexEvent, serJ_obj, serFields, serJ_num, serJ_str, serJ_false, serJ_arrNil, intToString, natToChars_fuel, natToCharsAux, Nat.reducePow,
    Int.reduceLT, Int.reduceAbs, Nat.reduceDiv, Nat.reduceMod, Nat.reduceAdd, Nat.reduceLT,
    String.reduceMk, Char.reduceOfNatAux, reduceIte, String.reduceAppend,
    List.cons_append, List.nil_append]

set_option maxRecDepth 3000 in
theorem serFlags : serJ cexFlags = "\x7b\"supply_fragile\":false,\"labor_tense\":false,\"quality_watch\":false,\"tail_risk\":false,\"supply\":0,\"labor\":0,\"quality\":0,\"competition\":0,\"finance\":0,\"regulation\":0,\"tech\":0,\"weather\":0\x7d" := by
  simp only [cexFlags, serJ_obj, serFields, serJ_num, serJ_str, serJ_false, serJ_arrNil, intToString, natToChars_fuel, natToCharsAux, Nat.reducePow,
    Int.reduceLT, Int.reduceAbs, Nat.reduceDiv, Nat.reduceMod, Nat.reduceAdd, Nat.reduceLT,
    String.reduceMk, Char.reduceOfNatAux, reduceIte, String.reduceAppend,
    List.cons_append, List.nil_append]

set_option maxRecDepth 2000 in
theorem serPressures : serJ cexPressures = "\x7b\"margin_push\":false\x7d" := by
  simp only [cexPressures, serJ_obj, serFields, serJ_num, serJ_str, serJ_false, serJ_arrNil, intToString, natToChars_fuel, natToCharsAux, Nat.reducePow,
    Int.reduceLT, Int.reduceAbs, Nat.reduceDiv, Nat.reduceMod, Nat.reduceAdd, Nat.reduceLT,
    String.reduceMk, Char.reduceOfNatAux, reduceIte, String.reduceAppend,
    List.cons_append, List.nil_append]

set_option maxRecDepth 2000 in
theorem serHeadroom : serJ cexHeadroom = "\x7b\"ot_pct\":0,\"temps_allowed\":false\x7d" := by
  simp only [cexHeadroom, serJ_obj, serFields, serJ_num, serJ_str, serJ_false, serJ_arrNil, intToString, natToChars_fuel, natToCharsAux, Nat.reducePow,
    Int.reduceLT, Int.reduceAbs, Nat.reduceDiv, Nat.reduceMod, Nat.reduceAdd, Nat.reduceLT,
    String.reduceMk, Char.reduceOfNatAux, reduceIte, String.reduceAppend,
    List.cons_append, List.nil_append]

set_option maxRecDepth 3000 in
theorem serTailA : serFields cexTailA = "\"pnl\":\x7b\"revenue\":12,\"cogs\":7,\"gm_percent\":40,\"opex\":4,\"net\":1,\"cash\":7\x7d,\"kpis\":\x7b\"share_percent\":8,\"service_nps\":74,\"morale\":66,\"backlog_units\":6000\x7d,\"event\":\x7b\"category\":\"market\",\"tier\":\"low\"\x7d,\"morale\":75,\"credibility\":80,\"backlog\":1000,\"service\":85,\"share\":100,\"cash_runway\":18" := by
  simp only [cexTailA, serFields, serPnl, serKpis, serEvent, serJ_num, serJ_str, serJ_false, serJ_arrNil, intToString, natToChars_fuel, natToCharsAux, Nat.reducePow,
    Int.reduceLT, Int.reduceAbs, Nat.reduceDiv, Nat.reduceMod, Nat.reduceAdd, Nat.reduceLT,
    String.reduceMk, Char.reduceOfNatAux, reduceIte, String.reduceAppend,
    List.cons_append, List.nil_append]

set_option maxRecDepth 3000 in
theorem serTailB : serFields cexTailB = "\"flags\":\x7b\"supply_fragile\":false,\"labor_tense\":false,\"quality_watch\":false,\"tail_risk\":false,\"supply\":0,\"labor\":0,\"quality\":0,\"competition\":0,\"finance\":0,\"regulation\":0,\"tech\":0,\"weather\":0\x7d,\"pressures\":\x7b\"margin_push\":false\x7d,\"headroom\":\x7b\"ot_pct\":0,\"temps_allowed\":false\x7d,\"recent_moves\":[],\"tail_risk\":5,\"shock_decay\":0,\"reward_decay\":1,\"ceo_credibility\":72,\"active_shocks\":[],\"active_rewards\":[],\"notes\":[]" := by
  simp only [cexTailB, serFields, serFlags, serPressures, serHeadroom, serJ_num, serJ_str, serJ_false, serJ_arrNil, intToString, natToChars_fuel, natToCharsAux, Nat.reducePow,
    Int.reduceLT, Int.reduceAbs, Nat.reduceDiv, Nat.reduceMod, Nat.reduceAdd, Nat.reduceLT,
    String.reduceMk, Char.reduceOfNatAux, reduceIte, String.reduceAppend,
    List.cons_append, List.nil_append]

set_option maxRecDepth 3000 in
theorem c1serial1 : serJ (Jx.obj cexStateFields1) ++ intToString (0 : ℤ) = cexJson1chunks := by
  have hAB : serFields (cexTailA ++ cexTailB) =
      serFields cexTailA ++ "," ++ serFields cexTailB :=
    serFields_append _ _ (by simp [cexTailA]) (by simp [cexTailB])
  show serJ (Jx.obj (("turn_no", Jx.num 0) :: ("period", Jx.str "Sep 2025") ::
    (cexTailA ++ cexTailB))) ++ intToString (0 : ℤ) = cexJson1chunks
  rw [serJ_obj, serFields_cons_ne _ _ _ (by simp),
    serFields_cons_ne _ _ _ (by simp [cexTailA]), hAB, serTailA, serTailB]
  simp only [serJ_num, serJ_str, cexJson1chunks, intToString, natToChars_fuel, natToCharsAux, Nat.reducePow,
    Int.reduceLT, Int.reduceAbs, Nat.reduceDiv, Nat.reduceMod, Nat.reduceAdd, Nat.reduceLT,
    String.reduceMk, Char.reduceOfNatAux, reduceIte, String.reduceAppend,
    List.cons_append, List.nil_append]

set_option maxRecDepth 3000 in
theorem c1serial2 : serJ (Jx.obj cexStateFields2) ++ intToString (0 : ℤ) = cexJson2chunks := by
  have hAB : serFields (cexTailA ++ cexTailB) =
      serFields cexTailA ++ "," ++ serFields cexTailB :=
    serFields_append _ _ (by simp [cexTailA]) (by simp [cexTailB])
  show serJ (Jx.obj (("period", Jx.str "Sep 2025") :: ("turn_no", Jx.num 0) ::
    (cexTailA ++ cexTailB))) ++ intToString (0 : ℤ) = cexJson2chunks
  rw [serJ_obj, serFields_cons_ne _ _ _ (by simp),
    serFields_cons_ne _ _ _ (by simp [cexTailA]), hAB, serTailA, serTailB]
  simp only [serJ_num, serJ_str, cexJson2chunks, intToString, natToChars_fuel, natToCharsAux, Nat.reducePow,
    Int.reduceLT, Int.reduceAbs, Nat.reduceDiv, Nat.reduceMod, Nat.reduceAdd, Nat.reduceLT,
    String.reduceMk, Char.reduceOfNatAux, reduceIte, String.reduceAppend,
    List.cons_append, List.nil_append]

theorem hashAux_append (h : ℤ) (l1 l2 : List Char) :
    hashStringAux h (l1 ++ l2) = hashStringAux (hashStringAux h l1) l2 := by
  induction l1 generalizing h with
  | nil => rfl
  | cons c t ih => exact ih (hashStringStep h c)

set_option maxRecDepth 2000 in
theorem c1hash1 : hashString cexJson1chunks = 930629179 := by
  have t0 : hashStringAux (0) "\x7b\"turn_no\":0,\"period\":\"S".data = (-1741952644) := by
    simp only [String.data, hashStringAux, hashStringStep, toInt32, Char.reduceToNat,
          Int.reduceMul, Int.reduceAdd, Int.reduceSub, Int.reduceMod, Int.reduceLT, reduceIte,
          Nat.cast_ofNat, Nat.cast_zero, Nat.cast_one, Int.reduceNeg]
  have t1 : hashStringAux (-1741952644) "ep 2025\",\"pnl\":\x7b\"revenue".data = (1506307821) := by
    simp only [String.data, hashStringAux, hashStringStep, toInt32, Char.reduceToNat,
          Int.reduceMul, Int.reduceAdd, Int.reduceSub, Int.reduceMod, Int.reduceLT, reduceIte,
          Nat.cast_ofNat, Nat.cast_zero, Nat.cast_one, Int.reduceNeg]
  have t2 : hashStringAux (1506307821) "\":12,\"cogs\":7,\"gm_percen".data = (1616856263) := by
    simp only [String.data, hashStringAux, hashStringStep, toInt32, Char.reduceToNat,
          Int.reduceMul, Int.reduceAdd, Int.reduceSub, Int.reduceMod, Int.reduceLT, reduceIte,
          Nat.cast_ofNat, Nat.cast_zero, Nat.cast_one, Int.reduceNeg]
  have t3 : hashStringAux (1616856263) "t\":40,\"opex\":4,\"net\":1,\"".data = (526189785) := by
    simp only [String.data, hashStringAux, hashStringStep, toInt32, Char.reduceToNat,
          Int.reduceMul, Int.reduceAdd, Int.reduceSub, Int.reduceMod, Int.reduceLT, reduceIte,
          Nat.cast_ofNat, Nat.cast_zero, Nat.cast_one, Int.reduceNeg]
  have t4 : hashStringAux (526189785) "cash\":7\x7d,\"kpis\":\x7b\"share_".data = (1098943246) := by
    simp only [String.data, hashStringAux, hashStringStep, toInt32, Char.reduceToNat,
          Int.reduceMul, Int.reduceAdd, Int.reduceSub, Int.reduceMod, Int.reduceLT, reduceIte,
          Nat.cast_ofNat, Nat.cast_zero, Nat.cast_one, Int.reduceNeg]
  have t5 : hashStringAux (1098943246) "percent\":8,\"service_nps\"".data = (1705369946) := by
    simp only [String.data, hashStringAux, hashStringStep, toInt32, Char.reduceToNat,
          Int.reduceMul, Int.reduceAdd, Int.reduceSub, Int.reduceMod, Int.reduceLT, reduceIte,
          Nat.cast_ofNat, Nat.cast_zero, Nat.cast_one, Int.reduceNeg]
  have t6 : hashStringAux (1705369946) ":74,\"morale\":66,\"backlog".data = (23452242) := by
    simp only [String.data, hashStringAux, hashStringStep, toInt32, Char.reduceToNat,
          Int.reduceMul, Int.reduceAdd, Int.reduceSub, Int.reduceMod, Int.reduceLT, reduceIte,
          Nat.cast_ofNat, Nat.cast_zero, Nat.cast_one, Int.reduceNeg]
  have t7 : hashStringAux (23452242) "_units\":6000\x7d,\"event\":\x7b\"".data = (1212352506) := by
    simp only [String.data, hashStringAux, hashStringStep, toInt32, Char.reduceToNat,
          Int.reduceMul, Int.reduceAdd, Int.reduceSub, Int.reduceMod, Int.reduceLT, reduceIte,
          Nat.cast_ofNat, Nat.cast_zero, Nat.cast_one, Int.reduceNeg]
  have t8 : hashStringAux (1212352506) "category\":\"market\",\"tier".data = (1964148652) := by
    simp only [String.data, hashStringAux, hashStringStep, toInt32, Char.reduceToNat,
          Int.reduceMul, Int.reduceAdd, Int.reduceSub, Int.reduceMod, Int.reduceLT, reduceIte,
          Nat.cast_ofNat, Nat.cast_zero, Nat.cast_one, Int.reduceNeg]
  have t9 : hashStringAux (1964148652) "\":\"low\"\x7d,\"morale\":75,\"cr".data = (-22198228) := by
    simp only [String.data, hashStringAux, hashStringStep, toInt32, Char.reduceToNat,
          Int.reduceMul, Int.reduceAdd, Int.reduceSub, Int.reduceMod, Int.reduceLT, reduceIte,
          Nat.cast_ofNat, Nat.cast_zero, Nat.cast_one, Int.reduceNeg]
  have t10 : hashStringAux (-22198228) "edibility\":80,\"backlog\":".data = (1606383656) := by
    simp only [String.data, hashStringAux, hashStringStep, toInt32, Char.reduceToNat,
          Int.reduceMul, Int.reduceAdd, Int.reduceSub, Int.reduceMod, Int.reduceLT, reduceIte,
          Nat.cast_ofNat, Nat.cast_zero, Nat.cast_one, Int.reduceNeg]
  have t11 : hashStringAux (1606383656) "1000,\"service\":85,\"share".data = (1245973084) := by
    simp only [String.data, hashStringAux, hashStringStep, toInt32, Char.reduceToNat,
          Int.reduceMul, Int.reduceAdd, Int.reduceSub, Int.reduceMod, Int.reduceLT, reduceIte,
          Nat.cast_ofNat, Nat.cast_zero, Nat.cast_one, Int.reduceNeg]
  have t12 : hashStringAux (1245973084) "\":100,\"cash_runway\":18,\"".data = (-1391727182) := by
    simp only [String.data, hashStringAux, hashStringStep, toInt32, Char.reduceToNat,
          Int.reduceMul, Int.reduceAdd, Int.reduceSub, Int.reduceMod, Int.reduceLT, reduceIte,
          Nat.cast_ofNat, Nat.cast_zero, Nat.cast_one, Int.reduceNeg]
  have t13 : hashStringAux (-1391727182) "flags\":\x7b\"supply_fragile\"".data = (876379534) := by
    simp only [String.data, hashStringAux, hashStringStep, toInt32, Char.reduceToNat,
          Int.reduceMul, Int.reduceAdd, Int.reduceSub, Int.reduceMod, Int.reduceLT, reduceIte,
          Nat.cast_ofNat, Nat.cast_zero, Nat.cast_one, Int.reduceNeg]
  have t14 : hashStringAux (876379534) ":false,\"labor_tense\":fal".data = (-710513850) := by
    simp only [String.data, hashStringAux, hashStringStep, toInt32, Char.reduceToNat,
          Int.reduceMul, Int.reduceAdd, Int.reduceSub, Int.reduceMod, Int.reduceLT, reduceIte,
          Nat.cast_ofNat, Nat.cast_zero, Nat.cast_one, Int.reduceNeg]
  have t15 : hashStringAux (-710513850) "se,\"quality_watch\":false".data = (1213881322) := by
    simp only [String.data, hashStringAux, hashStringStep, toInt32, Char.reduceToNat,
          Int.reduceMul, Int.reduceAdd, Int.reduceSub, Int.reduceMod, Int.reduceLT, reduceIte,
          Nat.cast_ofNat, Nat.cast_zero, Nat.cast_one, Int.reduceNeg]
  have t16 : hashStringAux (1213881322) ",\"tail_risk\":false,\"supp".data = (-569811931) := by
    simp only [String.data, hashStringAux, hashStringStep, toInt32, Char.reduceToNat,
          Int.reduceMul, Int.reduceAdd, Int.reduceSub, Int.reduceMod, Int.reduceLT, reduceIte,
          Nat.cast_ofNat, Nat.cast_zero, Nat.cast_one, Int.reduceNeg]
  have t17 : hashStringAux (-569811931) "ly\":0,\"labor\":0,\"quality".data = (273666437) := by
    simp only [String.data, hashStringAux, hashStringStep, toInt32, Char.reduceToNat,
          Int.reduceMul, Int.reduceAdd, Int.reduceSub, Int.reduceMod, Int.reduceLT, reduceIte,
          Nat.cast_ofNat, Nat.cast_zero, Nat.cast_one, Int.reduceNeg]
  have t18 : hashStringAux (273666437) "\":0,\"competition\":0,\"fin".data = (363633459) := by
    simp only [String.data, hashStringAux, hashStringStep, toInt32, Char.reduceToNat,
          Int.reduceMul, Int.reduceAdd, Int.reduceSub, Int.reduceMod, Int.reduceLT, reduceIte,
          Nat.cast_ofNat, Nat.cast_zero, Nat.cast_one, Int.reduceNeg]
  have t19 : hashStringAux (363633459) "ance\":0,\"regulation\":0,\"".data = (1060413144) := by
    simp only [String.data, hashStringAux, hashStringStep, toInt32, Char.reduceToNat,
          Int.reduceMul, Int.reduceAdd, Int.reduceSub, Int.reduceMod, Int.reduceLT, reduceIte,
          Nat.cast_ofNat, Nat.cast_zero, Nat.cast_one, Int.reduceNeg]
  have t20 : hashStringAux (1060413144) "tech\":0,\"weather\":0\x7d,\"pr".data = (-1567595919) := by
    simp only [String.data, hashStringAux, hashStringStep, toInt32, Char.reduceToNat,
          Int.reduceMul, Int.reduceAdd, Int.reduceSub, Int.reduceMod, Int.reduceLT, reduceIte,
          Nat.cast_ofNat, Nat.cast_zero, Nat.cast_one, Int.reduceNeg]
  have t21 : hashStringAux (-1567595919) "essures\":\x7b\"margin_push\":".data = (957447173) := by
    simp only [String.data, hashStringAux, hashStringStep, toInt32, Char.reduceToNat,
          Int.reduceMul, Int.reduceAdd, Int.reduceSub, Int.reduceMod, Int.reduceLT, reduceIte,
          Nat.cast_ofNat, Nat.cast_zero, Nat.cast_one, Int.reduceNeg]
  have t22 : hashStringAux (957447173) "false\x7d,\"headroom\":\x7b\"ot_p".data = (165406181) := by
    simp only [String.data, hashStringAux, hashStringStep, toInt32, Char.reduceToNat,
          Int.reduceMul, Int.reduceAdd, Int.reduceSub, Int.reduceMod, Int.reduceLT, reduceIte,
          Nat.cast_ofNat, Nat.cast_zero, Nat.cast_one, Int.reduceNeg]
  have t23 : hashStringAux (165406181) "ct\":0,\"temps_allowed\":fa".data = (71831459) := by
    simp only [String.data, hashStringAux, hashStringStep, toInt32, Char.reduceToNat,
          Int.reduceMul, Int.reduceAdd, Int.reduceSub, Int.reduceMod, Int.reduceLT, reduceIte,
          Nat.cast_ofNat, Nat.cast_zero, Nat.cast_one, Int.reduceNeg]
  have t24 : hashStringAux (71831459) "lse\x7d,\"recent_moves\":[],\"".data = (1448410022) := by
    simp only [String.data, hashStringAux, hashStringStep, toInt32, Char.reduceToNat,
          Int.reduceMul, Int.reduceAdd, Int.reduceSub, Int.reduceMod, Int.reduceLT, reduceIte,
          Nat.cast_ofNat, Nat.cast_zero, Nat.cast_one, Int.reduceNeg]
  have t25 : hashStringAux (1448410022) "tail_risk\":5,\"shock_deca".data = (-252447241) := by
    simp only [String.data, hashStringAux, hashStringStep, toInt32, Char.reduceToNat,
          Int.reduceMul, Int.reduceAdd, Int.reduceSub, Int.reduceMod, Int.reduceLT, reduceIte,
          Nat.cast_ofNat, Nat.cast_zero, Nat.cast_one, Int.reduceNeg]
  have t26 : hashStringAux (-252447241) "y\":0,\"reward_decay\":1,\"c".data = (335614602) := by
    simp only [String.data, hashStringAux, hashStringStep, toInt32, Char.reduceToNat,
          Int.reduceMul, Int.reduceAdd, Int.reduceSub, Int.reduceMod, Int.reduceLT, reduceIte,
          Nat.cast_ofNat, Nat.cast_zero, Nat.cast_one, Int.reduceNeg]
  have t27 : hashStringAux (335614602) "eo_credibility\":72,\"acti".data = (-1077607591) := by
    simp only [String.data, hashStringAux, hashStringStep, toInt32, Char.reduceToNat,
          Int.reduceMul, Int.reduceAdd, Int.reduceSub, Int.reduceMod, Int.reduceLT, reduceIte,
          Nat.cast_ofNat, Nat.cast_zero, Nat.cast_one, Int.reduceNeg]
  have t28 : hashStringAux (-1077607591) "ve_shocks\":[],\"active_re".data = (-1536737292) := by
    simp only [String.data, hashStringAux, hashStringStep, toInt32, Char.reduceToNat,
          Int.reduceMul, Int.reduceAdd, Int.reduceSub, Int.reduceMod, Int.reduceLT, reduceIte,
          Nat.cast_ofNat, Nat.cast_zero, Nat.cast_one, Int.reduceNeg]
  have t29 : hashStringAux (-1536737292) "wards\":[],\"notes\":[]\x7d0".data = (930629179) := by
    simp only [String.data, hashStringAux, hashStringStep, toInt32, Char.reduceToNat,
          Int.reduceMul, Int.reduceAdd, Int.reduceSub, Int.reduceMod, Int.reduceLT, reduceIte,
          Nat.cast_ofNat, Nat.cast_zero, Nat.cast_one, Int.reduceNeg]
  simp only [hashString, cexJson1chunks, String.data_append, hashAux_append]
  rw [t0, t1, t2, t3, t4, t5, t6, t7, t8, t9, t10, t11, t12, t13, t14, t15, t16, t17, t18, t19, t20, t21, t22, t23, t24, t25, t26, t27, t28, t29]
  rfl

set_option maxRecDepth 2000 in
theorem c1hash2 : hashString cexJson2chunks = 1238431675 := by
  have t0 : hashStringAux (0) "\x7b\"period\":\"Sep 2025\",\"tu".data = (2097809620) := by
    simp only [String.data, hashStringAux, hashStringStep, toInt32, Char.reduceToNat,
          Int.reduceMul, Int.reduceAdd, Int.reduceSub, Int.reduceMod, Int.reduceLT, reduceIte,
          Nat.cast_ofNat, Nat.cast_zero, Nat.cast_one, Int.reduceNeg]
  have t1 : hashStringAux (2097809620) "rn_no\":0,\"pnl\":\x7b\"revenue".data = (-78069651) := by
    simp only [String.data, hashStringAux, hashStringStep, toInt32, Char.reduceToNat,
          Int.reduceMul, Int.reduceAdd, Int.reduceSub, Int.reduceMod, Int.reduceLT, reduceIte,
          Nat.cast_ofNat, Nat.cast_zero, Nat.cast_one, Int.reduceNeg]
  have t2 : hashStringAux (-78069651) "\":12,\"cogs\":7,\"gm_percen".data = (-1301080505) := by
    simp only [String.data, hashStringAux, hashStringStep, toInt32, Char.reduceToNat,
          Int.reduceMul, Int.reduceAdd, Int.reduceSub, Int.reduceMod, Int.reduceLT, reduceIte,
          Nat.cast_ofNat, Nat.cast_zero, Nat.cast_one, Int.reduceNeg]
  have t3 : hashStringAux (-1301080505) "t\":40,\"opex\":4,\"net\":1,\"".data = (-1351330215) := by
    simp only [String.data, hashStringAux, hashStringStep, toInt32, Char.reduceToNat,
          Int.reduceMul, Int.reduceAdd, Int.reduceSub, Int.reduceMod, Int.reduceLT, reduceIte,
          Nat.cast_ofNat, Nat.cast_zero, Nat.cast_one, Int.reduceNeg]
  have t4 : hashStringAux (-1351330215) "cash\":7\x7d,\"kpis\":\x7b\"share_".data = (488332430) := by
    simp only [String.data, hashStringAux, hashStringStep, toInt32, Char.reduceToNat,
          Int.reduceMul, Int.reduceAdd, Int.reduceSub, Int.reduceMod, Int.reduceLT, reduceIte,
          Nat.cast_ofNat, Nat.cast_zero, Nat.cast_one, Int.reduceNeg]
  have t5 : hashStringAux (488332430) "percent\":8,\"service_nps\"".data = (440677082) := by
    simp only [String.data, hashStringAux, hashStringStep, toInt32, Char.reduceToNat,
          Int.reduceMul, Int.reduceAdd, Int.reduceSub, Int.reduceMod, Int.reduceLT, reduceIte,
          Nat.cast_ofNat, Nat.cast_zero, Nat.cast_one, Int.reduceNeg]
  have t6 : hashStringAux (440677082) ":74,\"morale\":66,\"backlog".data = (-1668830254) := by
    simp only [String.data, hashStringAux, hashStringStep, toInt32, Char.reduceToNat,
          Int.reduceMul, Int.reduceAdd, Int.reduceSub, Int.reduceMod, Int.reduceLT, reduceIte,
          Nat.cast_ofNat, Nat.cast_zero, Nat.cast_one, Int.reduceNeg]
  have t7 : hashStringAux (-1668830254) "_units\":6000\x7d,\"event\":\x7b\"".data = (1466456442) := by
    simp only [String.data, hashStringAux, hashStringStep, toInt32, Char.reduceToNat,
          Int.reduceMul, Int.reduceAdd, Int.reduceSub, Int.reduceMod, Int.reduceLT, reduceIte,
          Nat.cast_ofNat, Nat.cast_zero, Nat.cast_one, Int.reduceNeg]
  have t8 : hashStringAux (1466456442) "category\":\"market\",\"tier".data = (96164140) := by
    simp only [String.data, hashStringAux, hashStringStep, toInt32, Char.reduceToNat,
          Int.reduceMul, Int.reduceAdd, Int.reduceSub, Int.reduceMod, Int.reduceLT, reduceIte,
          Nat.cast_ofNat, Nat.cast_zero, Nat.cast_one, Int.reduceNeg]
  have t9 : hashStringAux (96164140) "\":\"low\"\x7d,\"morale\":75,\"cr".data = (-1638295124) := by
    simp only [String.data, hashStringAux, hashStringStep, toInt32, Char.reduceToNat,
          Int.reduceMul, Int.reduceAdd, Int.reduceSub, Int.reduceMod, Int.reduceLT, reduceIte,
          Nat.cast_ofNat, Nat.cast_zero, Nat.cast_one, Int.reduceNeg]
  have t10 : hashStringAux (-1638295124) "edibility\":80,\"backlog\":".data = (468666792) := by
    simp only [String.data, hashStringAux, hashStringStep, toInt32, Char.reduceToNat,
          Int.reduceMul, Int.reduceAdd, Int.reduceSub, Int.reduceMod, Int.reduceLT, reduceIte,
          Nat.cast_ofNat, Nat.cast_zero, Nat.cast_one, Int.reduceNeg]
  have t11 : hashStringAux (468666792) "1000,\"service\":85,\"share".data = (-1334354980) := by
    simp only [String.data, hashStringAux, hashStringStep, toInt32, Char.reduceToNat,
          Int.reduceMul, Int.reduceAdd, Int.reduceSub, Int.reduceMod, Int.reduceLT, reduceIte,
          Nat.cast_ofNat, Nat.cast_zero, Nat.cast_one, Int.reduceNeg]
  have t12 : hashStringAux (-1334354980) "\":100,\"cash_runway\":18,\"".data = (-893206734) := by
    simp only [String.data, hashStringAux, hashStringStep, toInt32, Char.reduceToNat,
          Int.reduceMul, Int.reduceAdd, Int.reduceSub, Int.reduceMod, Int.reduceLT, reduceIte,
          Nat.cast_ofNat, Nat.cast_zero, Nat.cast_one, Int.reduceNeg]
  have t13 : hashStringAux (-893206734) "flags\":\x7b\"supply_fragile\"".data = (-1762210034) := by
    simp only [String.data, hashStringAux, hashStringStep, toInt32, Char.reduceToNat,
          Int.reduceMul, Int.reduceAdd, Int.reduceSub, Int.reduceMod, Int.reduceLT, reduceIte,
          Nat.cast_ofNat, Nat.cast_zero, Nat.cast_one, Int.reduceNeg]
  have t14 : hashStringAux (-1762210034) ":false,\"labor_tense\":fal".data = (-1964753722) := by
    simp only [String.data, hashStringAux, hashStringStep, toInt32, Char.reduceToNat,
          Int.reduceMul, Int.reduceAdd, Int.reduceSub, Int.reduceMod, Int.reduceLT, reduceIte,
          Nat.cast_ofNat, Nat.cast_zero, Nat.cast_one, Int.reduceNeg]
  have t15 : hashStringAux (-1964753722) "se,\"quality_watch\":false".data = (-577000086) := by
    simp only [String.data, hashStringAux, hashStringStep, toInt32, Char.reduceToNat,
          Int.reduceMul, Int.reduceAdd, Int.reduceSub, Int.reduceMod, Int.reduceLT, reduceIte,
          Nat.cast_ofNat, Nat.cast_zero, Nat.cast_one, Int.reduceNeg]
  have t16 : hashStringAux (-577000086) ",\"tail_risk\":false,\"supp".data = (1624124837) := by
    simp only [String.data, hashStringAux, hashStringStep, toInt32, Char.reduceToNat,
          Int.reduceMul, Int.reduceAdd, Int.reduceSub, Int.reduceMod, Int.reduceLT, reduceIte,
          Nat.cast_ofNat, Nat.cast_zero, Nat.cast_one, Int.reduceNeg]
  have t17 : hashStringAux (1624124837) "ly\":0,\"labor\":0,\"quality".data = (236462853) := by
    simp only [String.data, hashStringAux, hashStringStep, toInt32, Char.reduceToNat,
          Int.reduceMul, Int.reduceAdd, Int.reduceSub, Int.reduceMod, Int.reduceLT, reduceIte,
          Nat.cast_ofNat, Nat.cast_zero, Nat.cast_one, Int.reduceNeg]
  have t18 : hashStringAux (236462853) "\":0,\"competition\":0,\"fin".data = (-1678218061) := by
    simp only [String.data, hashStringAux, hashStringStep, toInt32, Char.reduceToNat,
          Int.reduceMul, Int.reduceAdd, Int.reduceSub, Int.reduceMod, Int.reduceLT, reduceIte,
          Nat.cast_ofNat, Nat.cast_zero, Nat.cast_one, Int.reduceNeg]
  have t19 : hashStringAux (-1678218061) "ance\":0,\"regulation\":0,\"".data = (-612110248) := by
    simp only [String.data, hashStringAux, hashStringStep, toInt32, Char.reduceToNat,
          Int.reduceMul, Int.reduceAdd, Int.reduceSub, Int.reduceMod, Int.reduceLT, reduceIte,
          Nat.cast_ofNat, Nat.cast_zero, Nat.cast_one, Int.reduceNeg]
  have t20 : hashStringAux (-612110248) "tech\":0,\"weather\":0\x7d,\"pr".data = (1650668529) := by
    simp only [String.data, hashStringAux, hashStringStep, toInt32, Char.reduceToNat,
          Int.reduceMul, Int.reduceAdd, Int.reduceSub, Int.reduceMod, Int.reduceLT, reduceIte,
          Nat.cast_ofNat, Nat.cast_zero, Nat.cast_one, Int.reduceNeg]
  have t21 : hashStringAux (1650668529) "essures\":\x7b\"margin_push\":".data = (-1444426363) := by
    simp only [String.data, hashStringAux, hashStringStep, toInt32, Char.reduceToNat,
          Int.reduceMul, Int.reduceAdd, Int.reduceSub, Int.reduceMod, Int.reduceLT, reduceIte,
          Nat.cast_ofNat, Nat.cast_zero, Nat.cast_one, Int.reduceNeg]
  have t22 : hashStringAux (-1444426363) "false\x7d,\"headroom\":\x7b\"ot_p".data = (959821669) := by
    simp only [String.data, hashStringAux, hashStringStep, toInt32, Char.reduceToNat,
          Int.reduceMul, Int.reduceAdd, Int.reduceSub, Int.reduceMod, Int.reduceLT, reduceIte,
          Nat.cast_ofNat, Nat.cast_zero, Nat.cast_one, Int.reduceNeg]
  have t23 : hashStringAux (959821669) "ct\":0,\"temps_allowed\":fa".data = (2141544739) := by
    simp only [String.data, hashStringAux, hashStringStep, toInt32, Char.reduceToNat,
          Int.reduceMul, Int.reduceAdd, Int.reduceSub, Int.reduceMod, Int.reduceLT, reduceIte,
          Nat.cast_ofNat, Nat.cast_zero, Nat.cast_one, Int.reduceNeg]
  have t24 : hashStringAux (2141544739) "lse\x7d,\"recent_moves\":[],\"".data = (724946214) := by
    simp only [String.data, hashStringAux, hashStringStep, toInt32, Char.reduceToNat,
          Int.reduceMul, Int.reduceAdd, Int.reduceSub, Int.reduceMod, Int.reduceLT, reduceIte,
          Nat.cast_ofNat, Nat.cast_zero, Nat.cast_one, Int.reduceNeg]
  have t25 : hashStringAux (724946214) "tail_risk\":5,\"shock_deca".data = (-1395112073) := by
    simp only [String.data, hashStringAux, hashStringStep, toInt32, Char.reduceToNat,
          Int.reduceMul, Int.reduceAdd, Int.reduceSub, Int.reduceMod, Int.reduceLT, reduceIte,
          Nat.cast_ofNat, Nat.cast_zero, Nat.cast_one, Int.reduceNeg]
  have t26 : hashStringAux (-1395112073) "y\":0,\"reward_decay\":1,\"c".data = (-999758838) := by
    simp only [String.data, hashStringAux, hashStringStep, toInt32, Char.reduceToNat,
          Int.reduceMul, Int.reduceAdd, Int.reduceSub, Int.reduceMod, Int.reduceLT, reduceIte,
          Nat.cast_ofNat, Nat.cast_zero, Nat.cast_one, Int.reduceNeg]
  have t27 : hashStringAux (-999758838) "eo_credibility\":72,\"acti".data = (-231713575) := by
    simp only [String.data, hashStringAux, hashStringStep, toInt32, Char.reduceToNat,
          Int.reduceMul, Int.reduceAdd, Int.reduceSub, Int.reduceMod, Int.reduceLT, reduceIte,
          Nat.cast_ofNat, Nat.cast_zero, Nat.cast_one, Int.reduceNeg]
  have t28 : hashStringAux (-231713575) "ve_shocks\":[],\"active_re".data = (1716916596) := by
    simp only [String.data, hashStringAux, hashStringStep, toInt32, Char.reduceToNat,
          Int.reduceMul, Int.reduceAdd, Int.reduceSub, Int.reduceMod, Int.reduceLT, reduceIte,
          Nat.cast_ofNat, Nat.cast_zero, Nat.cast_one, Int.reduceNeg]
  have t29 : hashStringAux (1716916596) "wards\":[],\"notes\":[]\x7d0".data = (1238431675) := by
    simp only [String.data, hashStringAux, hashStringStep, toInt32, Char.reduceToNat,
          Int.reduceMul, Int.reduceAdd, Int.reduceSub, Int.reduceMod, Int.reduceLT, reduceIte,
          Nat.cast_ofNat, Nat.cast_zero, Nat.cast_one, Int.reduceNeg]
  simp only [hashString, cexJson2chunks, String.data_append, hashAux_append]
  rw [t0, t1, t2, t3, t4, t5, t6, t7, t8, t9, t10, t11, t12, t13, t14, t15, t16, t17, t18, t19, t20, t21, t22, t23, t24, t25, t26, t27, t28, t29]
  rfl

theorem rngEvent_roll_formula (fields : List (String × Jx)) (t : ℤ) :
    (generateEnhancedRngEvent fields t).roll =
      hashString (serJ (Jx.obj fields) ++ intToString t) % 100 + 1 := rfl

theorem c1roll1 : (generateEnhancedRngEvent cexStateFields1 0).roll = 80 := by
  rw [rngEvent_roll_formula, c1serial1, c1hash1]

theorem c1roll2 : (generateEnhancedRngEvent cexStateFields2 0).roll = 76 := by
  rw [rngEvent_roll_formula, c1serial2, c1hash2]

/-- C1 counterexample: two states equal as field-value maps (the field lists
are permutations of each other) whose generated events differ, because the
hash input is the order-dependent serialization. -/
theorem c1_counterexample :
    cexStateFields1.Perm cexStateFields2 ∧
    generateEnhancedRngEvent cexStateFields1 0 ≠ generateEnhancedRngEvent cexStateFields2 0 := by
  constructor
  · show (("turn_no", Jx.num 0) :: ("period", Jx.str "Sep 2025") :: (cexTailA ++ cexTailB)).Perm
      (("period", Jx.str "Sep 2025") :: ("turn_no", Jx.num 0) :: (cexTailA ++ cexTailB))
    exact List.Perm.swap _ _ _
  · intro h
    have hr := congrArg RngEvent.roll h
    rw [c1roll1, c1roll2] at hr
    exact absurd hr (by decide)

/-- C1 (amended): the generator is a pure function of the ordered state and
turn index — the legacy entry point delegates to the enhanced generator and
repeated calls agree — but the event roll is derived from the hash of the
order-dependent serialization JSON.stringify(state) ++ turnIndex. -/
theorem c1_event_generation_deterministic_but_order_dependent
    (fields : List (String × Jx)) (t : ℤ) :
    generateRngEvent fields t = generateEnhancedRngEvent fields t ∧
    (generateEnhancedRngEvent fields t).roll =
      hashString (serJ (Jx.obj fields) ++ intToString t) % 100 + 1 :=
  ⟨rfl, rngEvent_roll_formula fields t⟩

theorem balanceChecks_ok (b : MiniBalanceSheet) (ns : List FinNote) (cc pv : ℚ) :
    (balanceChecks b ns cc pv).balance_ok = true := by
  unfold balanceChecks
  by_cases h : decide (|b.cash + b.ar + b.inventory + b.ppe -
      (b.ap + b.debt + b.other_equity + b.retained_earnings)| < tol) = true
  · simp only [if_pos h]
    exact h
  · simp only [if_neg h]

theorem balanceChecks_ident (b : MiniBalanceSheet) (ns : List FinNote) (cc pv : ℚ) :
    |assetsOf (balanceChecks b ns cc pv).balance - liabEqOf (balanceChecks b ns cc pv).balance| < tol := by
  unfold balanceChecks assetsOf liabEqOf
  by_cases h : decide (|b.cash + b.ar + b.inventory + b.ppe -
      (b.ap + b.debt + b.other_equity + b.retained_earnings)| < tol) = true
  · simp only [if_pos h]
    exact of_decide_eq_true h
  · simp only [if_neg h]
    have h0 : b.cash + b.ar + b.inventory + b.ppe -
        (b.ap + b.debt + b.other_equity +
          (b.retained_earnings + (b.cash + b.ar + b.inventory + b.ppe -
            (b.ap + b.debt + b.other_equity + b.retained_earnings)))) = 0 := by ring
    rw [h0]
    norm_num [tol]

theorem balanceChecks_recon_ok (b : MiniBalanceSheet) (ns : List FinNote) (cc pv : ℚ)
    (h : cc = pv) (hn : FinNote.reconDrift ∉ ns) :
    (balanceChecks b ns cc pv).cash_recon_ok = true ∧
      FinNote.reconDrift ∉ (balanceChecks b ns cc pv).notes := by
  have hlt : |cc - pv| < tol := by
    rw [h, sub_self, abs_zero]
    norm_num [tol]
  unfold balanceChecks
  simp only [decide_eq_true_eq, if_pos hlt]
  constructor
  · exact hlt
  · split
    · exact hn
    · simp only [List.mem_append, List.mem_singleton]
      rintro (hc | hc)
      · exact hn hc
      · exact FinNote.noConfusion hc

theorem financingStep_prov_eq (pd re0 buf p0 : ℚ) (pol : Bool) (ns : List FinNote) :
    (financingStep pd re0 buf p0 pol ns).prov = p0 + (financingStep pd re0 buf p0 pol ns).cff := by
  unfold financingStep
  by_cases h1 : p0 < buf
  · simp only [if_pos h1]; ring
  · rw [if_neg h1]
    by_cases h2 : pol = true ∧ 0 < re0 ∧ buf < p0
    · rw [if_pos h2]
      by_cases h3 : (0:ℚ) < min re0 ((p0 - buf) * 0.25)
      · simp only [if_pos h3]; ring
      · simp only [if_neg h3]; ring
    · rw [if_neg h2]; ring

theorem financingStep_buffer_le (pd re0 buf p0 : ℚ) (pol : Bool) (ns : List FinNote) :
    buf ≤ (financingStep pd re0 buf p0 pol ns).prov := by
  unfold financingStep
  by_cases h1 : p0 < buf
  · simp only [if_pos h1]; linarith
  · rw [if_neg h1]
    by_cases h2 : pol = true ∧ 0 < re0 ∧ buf < p0
    · rw [if_pos h2]
      by_cases h3 : (0:ℚ) < min re0 ((p0 - buf) * 0.25)
      · simp only [if_pos h3]
        have hmin : min re0 ((p0 - buf) * 0.25) ≤ (p0 - buf) * 0.25 := min_le_right _ _
        show buf ≤ p0 - min re0 ((p0 - buf) * 0.25)
        nlinarith [h2.2.2]
      · simp only [if_neg h3]; show buf ≤ p0; linarith
    · rw [if_neg h2]; show buf ≤ p0; linarith

theorem financingStep_notes_sub (pd re0 buf p0 : ℚ) (pol : Bool) (ns : List FinNote)
    (x : FinNote) (hx : x ∉ ns) (hd : x ≠ FinNote.debtDraw) (hv : x ≠ FinNote.dividendPaid) :
    x ∉ (financingStep pd re0 buf p0 pol ns).notes := by
  unfold financingStep
  by_cases h1 : p0 < buf
  · simp only [if_pos h1]
    simp [List.mem_append, hx, hd]
  · rw [if_neg h1]
    by_cases h2 : pol = true ∧ 0 < re0 ∧ buf < p0
    · rw [if_pos h2]
      by_cases h3 : (0:ℚ) < min re0 ((p0 - buf) * 0.25)
      · simp only [if_pos h3]
        simp [List.mem_append, hx, hv]
      · simp only [if_neg h3]; exact hx
    · rw [if_neg h2]; exact hx

theorem raw_eq_prov (o cfo cfi d pd re0 buf : ℚ) (pol : Bool) (ns : List FinNote) :
    o + cfo + cfi + (financingStep pd re0 buf (o + cfo + cfi + 0 + d) pol ns).cff + d
      = (financingStep pd re0 buf (o + cfo + cfi + 0 + d) pol ns).prov := by
  rw [financingStep_prov_eq]
  ring

/-- C3: after every computeFinancials call the returned balance_ok is true
and the returned balance sheet satisfies the balance identity
|assets - (liabilities + equity)| < 1e-6, the drift having been plugged
into retained earnings when needed. -/
theorem c3_balance_identity (input : FinanceInput) :
    (computeFinancials input).balance_ok = true ∧
    |assetsOf (computeFinancials input).balance - liabEqOf (computeFinancials input).balance| < tol := by
  simp only [computeFinancials]
  exact ⟨balanceChecks_ok _ _ _ _, balanceChecks_ident _ _ _ _⟩

/-- C10: for every input with a non-negative minimum cash buffer,
computeFinancials returns cash_recon_ok = true and never emits the
reconciliation-drift note: the check compares cash_close against a
provisional close updated in lockstep with CFF. -/
theorem c10_recon_always_ok (input : FinanceInput) (_hbuf : 0 ≤ input.params.min_cash_buffer) :
    (computeFinancials input).cash_recon_ok = true ∧
      FinNote.reconDrift ∉ (computeFinancials input).notes := by
  simp only [computeFinancials]
  refine balanceChecks_recon_ok _ _ _ _ (raw_eq_prov _ _ _ _ _ _ _ _ _)
    (financingStep_notes_sub _ _ _ _ _ _ _ ?_ (by simp) (by simp))
  split <;> simp

theorem cashClose_formula (o cfo cfi s buf pd re0 : ℚ) (pol : Bool) (ns : List FinNote)
    (hbuf : 0 ≤ buf) :
    max 0 (o + cfo + cfi + (financingStep pd re0 buf (o + cfo + cfi + 0 + -s) pol ns).cff + -s)
      = o + cfo + cfi + (financingStep pd re0 buf (o + cfo + cfi + 0 + -s) pol ns).cff + -s := by
  have h1 := raw_eq_prov o cfo cfi (-s) pd re0 buf pol ns
  have h2 := financingStep_buffer_le pd re0 buf (o + cfo + cfi + 0 + -s) pol ns
  apply max_eq_right
  rw [h1]
  linarith

theorem abs_spend_cancel (x s : ℚ) : |x + -s - (x - s)| < tol := by
  rw [show x + -s - (x - s) = 0 from by ring]
  norm_num [tol]


/-- C10 witness: the baseline input has a non-negative buffer and its
snapshot reconciles. -/
theorem c10_witness :
    (0 : ℚ) ≤ baselineFinanceInput.params.min_cash_buffer ∧
    ((computeFinancials baselineFinanceInput).cash_recon_ok = true ∧
     FinNote.reconDrift ∉ (computeFinancials baselineFinanceInput).notes) :=
  ⟨by norm_num [baselineFinanceInput, FINANCE_PARAMS_DEFAULT],
   c10_recon_always_ok baselineFinanceInput
     (by norm_num [baselineFinanceInput, FINANCE_PARAMS_DEFAULT])⟩

/-- C4 (amended): whenever the minimum cash buffer is non-negative, the
returned cash_close equals cash_open + CFO + CFI + CFF minus direct cash
spending to within 1e-6. (The unqualified claim fails: a negative buffer
lets the raw close go negative, and the returned cash_close is floored at
zero, see the counterexample.) -/
theorem c4_cash_reconciliation (input : FinanceInput) (hbuf : 0 ≤ input.params.min_cash_buffer) :
    |(computeFinancials input).cash_close -
      ((computeFinancials input).cash_open + (computeFinancials input).cashflow.cfo +
       (computeFinancials input).cashflow.cfi + (computeFinancials input).cashflow.cff -
       input.direct_cash_spending.getD 0)| < tol := by
  simp only [computeFinancials]
  rw [cashClose_formula _ _ _ _ _ _ _ _ _ hbuf]
  exact abs_spend_cancel _ _

/-- C8: the baseline scenario of the spec: starting balance and baseline
drivers over a 30-day period give revenue 1000000, cogs 600000, gross
profit 400000, AR 1000000, inventory 900000, AP 600000, balance_ok and
cash_recon_ok both true. -/
theorem c8_baseline_scenario :
    (computeFinancials baselineFinanceInput).pnl.revenue = 1000000 ∧
    (computeFinancials baselineFinanceInput).pnl.cogs = 600000 ∧
    (computeFinancials baselineFinanceInput).pnl.gross_profit = 400000 ∧
    (computeFinancials baselineFinanceInput).balance.ar = 1000000 ∧
    (computeFinancials baselineFinanceInput).balance.inventory = 900000 ∧
    (computeFinancials baselineFinanceInput).balance.ap = 600000 ∧
    (computeFinancials baselineFinanceInput).balance_ok = true ∧
    (computeFinancials baselineFinanceInput).cash_recon_ok = true := by
  norm_num [computeFinancials, balanceChecks, financingStep, baselineFinanceInput,
    STARTING_BALANCE, BASELINE_DRIVERS, FINANCE_PARAMS_DEFAULT, tol]

/-- C4 counterexample: with a negative min_cash_buffer the financing step
draws no debt, the raw close is -500000, and the returned cash_close is
floored at 0, breaking the reconciliation identity as stated. -/
theorem c4_counterexample :
    ¬ (|(computeFinancials negBufferFinanceInput).cash_close -
      ((computeFinancials negBufferFinanceInput).cash_open +
       (computeFinancials negBufferFinanceInput).cashflow.cfo +
       (computeFinancials negBufferFinanceInput).cashflow.cfi +
       (computeFinancials negBufferFinanceInput).cashflow.cff -
       negBufferFinanceInput.direct_cash_spending.getD 0)| < tol) := by
  norm_num [computeFinancials, balanceChecks, financingStep, negBufferFinanceInput, tol]

theorem c4_witness :
    (0:ℚ) ≤ baselineFinanceInput.params.min_cash_buffer ∧
    |(computeFinancials baselineFinanceInput).cash_close -
      ((computeFinancials baselineFinanceInput).cash_open +
       (computeFinancials baselineFinanceInput).cashflow.cfo +
       (computeFinancials baselineFinanceInput).cashflow.cfi +
       (computeFinancials baselineFinanceInput).cashflow.cff -
       baselineFinanceInput.direct_cash_spending.getD 0)| < tol :=
  ⟨by norm_num [baselineFinanceInput, FINANCE_PARAMS_DEFAULT],
   c4_cash_reconciliation baselineFinanceInput (by norm_num [baselineFinanceInput, FINANCE_PARAMS_DEFAULT])⟩

theorem abs_clamp_le (c v : ℚ) (hc : 0 ≤ c) : |max (-c) (min c v)| ≤ c := by
  rw [abs_le]
  constructor
  · exact le_max_left _ _
  · apply max_le
    · linarith
    · exact min_le_left _ _

theorem clampEntry_bounded (a : AppliedDeltas) (k : String) (v : ℚ) (caps : Caps)
    (hc : CapsNonneg caps) (ha : DeltasBounded a caps) :
    DeltasBounded (clampEntry a k v caps) caps := by
  obtain ⟨h1, h2, h3, h4⟩ := hc
  obtain ⟨b1, b2, b3, b4, b5, b6⟩ := ha
  by_cases e1 : k = "morale"
  · simp only [clampEntry, if_pos e1]
    exact ⟨abs_clamp_le _ _ h1, b2, b3, b4, b5, b6⟩
  · by_cases e2 : k = "credibility"
    · simp only [clampEntry, if_neg e1, if_pos e2]
      exact ⟨b1, abs_clamp_le _ _ h2, b3, b4, b5, b6⟩
    · by_cases e3 : k = "service"
      · have e3b : ¬ k = "backlog" := by rw [e3]; simp
        simp only [clampEntry, if_neg e1, if_neg e2, if_pos e3, if_neg e3b]
        exact ⟨b1, b2, abs_clamp_le _ _ h3, b4, b5, b6⟩
      · by_cases e4 : k = "backlog"
        · simp only [clampEntry, if_neg e1, if_neg e2, if_neg e3, if_pos e4]
          exact ⟨b1, b2, b3, abs_clamp_le _ _ (by positivity), b5, b6⟩
        · by_cases e5 : k = "share"
          · simp only [clampEntry, if_neg e1, if_neg e2, if_neg e3, if_neg e4, if_pos e5]
            exact ⟨b1, b2, b3, b4, abs_clamp_le _ _ h4, b6⟩
          · by_cases e6 : k = "cash_runway"
            · simp only [clampEntry, if_neg e1, if_neg e2, if_neg e3, if_neg e4, if_neg e5,
                if_pos e6]
              exact ⟨b1, b2, b3, b4, b5, abs_clamp_le _ _ h4⟩
            · simp only [clampEntry, if_neg e1, if_neg e2, if_neg e3, if_neg e4, if_neg e5,
                if_neg e6]
              exact ⟨b1, b2, b3, b4, b5, b6⟩

theorem clampLoop_bounded (l : DMap) (a : AppliedDeltas) (caps : Caps)
    (hc : CapsNonneg caps) (ha : DeltasBounded a caps) :
    DeltasBounded (clampLoop a l caps) caps := by
  induction l generalizing a with
  | nil => exact ha
  | cons kv rest ih =>
      obtain ⟨k, v⟩ := kv
      exact ih _ (clampEntry_bounded a k v caps hc ha)

/-- C6: for every evaluator output and state, with non-negative caps, each
applied delta produced by clampDeltas satisfies its per-metric cap bound:
morale, credibility and service against their own caps, backlog against
backlog_pressure times 250, share and cash-runway against the
backlog-pressure cap. -/
theorem c6_cap_compliance (ev : EvaluatorOutput) (st : State) (caps : Caps) (hc : CapsNonneg caps) :
    |(clampDeltas (applySignals ev st caps) st caps).morale| ≤ caps.morale ∧
    |(clampDeltas (applySignals ev st caps) st caps).credibility| ≤ caps.credibility ∧
    |(clampDeltas (applySignals ev st caps) st caps).service| ≤ caps.service_risk ∧
    |(clampDeltas (applySignals ev st caps) st caps).backlog| ≤ caps.backlog_pressure * 250 ∧
    |(clampDeltas (applySignals ev st caps) st caps).share| ≤ caps.backlog_pressure ∧
    |(clampDeltas (applySignals ev st caps) st caps).cash_runway| ≤ caps.backlog_pressure := by
  have h0 : DeltasBounded (⟨0, 0, 0, 0, 0, 0⟩ : AppliedDeltas) caps := by
    obtain ⟨h1, h2, h3, h4⟩ := hc
    refine ⟨?_, ?_, ?_, ?_, ?_, ?_⟩ <;> simp <;> first | assumption | positivity
  exact clampLoop_bounded _ _ _ hc h0


/-- C6 witness: the default caps are non-negative and the bounds hold at the
extreme evaluator output on the base state. -/
theorem c6_witness :
    CapsNonneg DEFAULT_CAPS ∧
    (|(clampDeltas (applySignals extremeEval baseState DEFAULT_CAPS) baseState DEFAULT_CAPS).morale| ≤ DEFAULT_CAPS.morale ∧
     |(clampDeltas (applySignals extremeEval baseState DEFAULT_CAPS) baseState DEFAULT_CAPS).credibility| ≤ DEFAULT_CAPS.credibility ∧
     |(clampDeltas (applySignals extremeEval baseState DEFAULT_CAPS) baseState DEFAULT_CAPS).service| ≤ DEFAULT_CAPS.service_risk ∧
     |(clampDeltas (applySignals extremeEval baseState DEFAULT_CAPS) baseState DEFAULT_CAPS).backlog| ≤ DEFAULT_CAPS.backlog_pressure * 250 ∧
     |(clampDeltas (applySignals extremeEval baseState DEFAULT_CAPS) baseState DEFAULT_CAPS).share| ≤ DEFAULT_CAPS.backlog_pressure ∧
     |(clampDeltas (applySignals extremeEval baseState DEFAULT_CAPS) baseState DEFAULT_CAPS).cash_runway| ≤ DEFAULT_CAPS.backlog_pressure) :=
  ⟨by norm_num [CapsNonneg, DEFAULT_CAPS],
   c6_cap_compliance extremeEval baseState DEFAULT_CAPS (by norm_num [CapsNonneg, DEFAULT_CAPS])⟩

/-- C7: for every input state, declaration and evaluator output, the state
produced by resolveTurn keeps morale, credibility and service within
[0, 100] and backlog, share and cash-runway at or above 0. -/
theorem c7_bounded_state (caps : Caps) (st : State) (d : String) (ev : EvaluatorOutput) :
    0 ≤ (resolveTurn caps st d ev).state_after.morale ∧
    (resolveTurn caps st d ev).state_after.morale ≤ 100 ∧
    0 ≤ (resolveTurn caps st d ev).state_after.credibility ∧
    (resolveTurn caps st d ev).state_after.credibility ≤ 100 ∧
    0 ≤ (resolveTurn caps st d ev).state_after.service ∧
    (resolveTurn caps st d ev).state_after.service ≤ 100 ∧
    0 ≤ (resolveTurn caps st d ev).state_after.backlog ∧
    0 ≤ (resolveTurn caps st d ev).state_after.share ∧
    0 ≤ (resolveTurn caps st d ev).state_after.cash_runway :=
  ⟨le_max_left 0 _, max_le (by norm_num) (min_le_left _ _),
   le_max_left 0 _, max_le (by norm_num) (min_le_left _ _),
   le_max_left 0 _, max_le (by norm_num) (min_le_left _ _),
   le_max_left 0 _, le_max_left 0 _, le_max_left 0 _⟩

theorem dget_dset_ne (m : DMap) (k : String) (v : ℚ) (q : String) (h : q ≠ k) :
    dget (dset m k v) q = dget m q := by
  induction m with
  | nil =>
      simp only [dset, dget]
      rw [if_neg (fun hk => h hk.symm)]
  | cons kv rest ih =>
      obtain ⟨k0, w⟩ := kv
      simp only [dset]
      by_cases hk : k0 = k
      · rw [if_pos hk]
        have hq : ¬ k0 = q := fun hqe => h (hqe.symm.trans hk)
        simp only [dget]
        rw [if_neg hq, if_neg hq]
      · rw [if_neg hk]
        simp only [dget]
        by_cases hq : k0 = q
        · rw [if_pos hq, if_pos hq]
        · rw [if_neg hq, if_neg hq]
          exact ih

theorem mem_dset (m : DMap) (k : String) (v : ℚ) (kv : String × ℚ)
    (h : kv ∈ dset m k v) : kv.1 = k ∨ kv ∈ m := by
  induction m with
  | nil =>
      simp only [dset, List.mem_singleton] at h
      left
      rw [h]
  | cons kv0 rest ih =>
      obtain ⟨k0, w⟩ := kv0
      simp only [dset] at h
      by_cases hk : k0 = k
      · rw [if_pos hk] at h
        rcases List.mem_cons.mp h with h1 | h1
        · left; rw [h1, hk]
        · right; exact List.mem_cons_of_mem _ h1
      · rw [if_neg hk] at h
        rcases List.mem_cons.mp h with h1 | h1
        · right; rw [h1]; exact List.mem_cons_self _ _
        · rcases ih h1 with h2 | h2
          · left; exact h2
          · right; exact List.mem_cons_of_mem _ h2

theorem dget_eventChannel_ne (m : DMap) (key sk : String) (sig : Option DirStrength)
    (st : State) (caps : Caps) (q : String) (h : q ≠ sk) :
    dget (eventChannel m key sk sig st caps) q = dget m q := by
  unfold eventChannel
  cases sig with
  | none => rfl
  | some s =>
      obtain ⟨sd, sstr⟩ := s
      cases sd with
      | none => rfl
      | up =>
          by_cases hb : sk = "backlog"
          · simp only [if_pos hb]
            rw [hb] at h ⊢
            exact dget_dset_ne _ _ _ _ h
          · simp only [if_neg hb]
            exact dget_dset_ne _ _ _ _ h
      | down =>
          by_cases hb : sk = "backlog"
          · simp only [if_pos hb]
            rw [hb] at h ⊢
            exact dget_dset_ne _ _ _ _ h
          · simp only [if_neg hb]
            exact dget_dset_ne _ _ _ _ h

theorem dget_combineLoop_ne (adds : DMap) (acc : DMap) (q : String)
    (h : ∀ kv ∈ adds, kv.1 ≠ q) :
    dget (combineLoop acc adds) q = dget acc q := by
  induction adds generalizing acc with
  | nil => rfl
  | cons kv rest ih =>
      obtain ⟨k, v⟩ := kv
      simp only [combineLoop]
      rw [ih _ (fun kv2 hm => h kv2 (List.mem_cons_of_mem _ hm))]
      exact dget_dset_ne _ _ _ _ (fun hq => h (k, v) (List.mem_cons_self _ _) hq.symm)

theorem mem_eventChannel (m : DMap) (key sk : String) (sig : Option DirStrength)
    (st : State) (caps : Caps) (kv : String × ℚ)
    (h : kv ∈ eventChannel m key sk sig st caps) : kv.1 = sk ∨ kv ∈ m := by
  unfold eventChannel at h
  cases sig with
  | none => exact Or.inr h
  | some s =>
      obtain ⟨sd, sstr⟩ := s
      cases sd with
      | none => exact Or.inr h
      | up =>
          by_cases hb : sk = "backlog"
          · simp only [if_pos hb] at h
            exact mem_dset _ _ _ _ h
          · simp only [if_neg hb] at h
            exact mem_dset _ _ _ _ h
      | down =>
          by_cases hb : sk = "backlog"
          · simp only [if_pos hb] at h
            exact mem_dset _ _ _ _ h
          · simp only [if_neg hb] at h
            exact mem_dset _ _ _ _ h

theorem mem_applyEventImpact (ic : ImpactChannels) (st : State) (caps : Caps)
    (kv : String × ℚ) (h : kv ∈ applyEventImpact ic st caps) :
    kv.1 = "morale" ∨ kv.1 = "credibility" ∨ kv.1 = "backlog" ∨ kv.1 = "service" := by
  unfold applyEventImpact at h
  rcases mem_eventChannel _ _ _ _ _ _ _ h with h1 | h1
  · exact Or.inr (Or.inr (Or.inr h1))
  rcases mem_eventChannel _ _ _ _ _ _ _ h1 with h2 | h2
  · exact Or.inr (Or.inr (Or.inl h2))
  rcases mem_eventChannel _ _ _ _ _ _ _ h2 with h3 | h3
  · exact Or.inr (Or.inl h3)
  rcases mem_eventChannel _ _ _ _ _ _ _ h3 with h4 | h4
  · exact Or.inl h4
  · simp at h4

theorem mem_applyNonsensePenalty (pen : ℚ) (st : State) (caps : Caps)
    (kv : String × ℚ) (h : kv ∈ applyNonsensePenalty pen st caps) :
    kv.1 = "credibility" ∨ kv.1 = "morale" := by
  unfold applyNonsensePenalty at h
  by_cases hp : pen ≤ 0
  · rw [if_pos hp] at h
    simp at h
  · rw [if_neg hp] at h
    simp only [List.mem_cons, List.mem_singleton] at h
    rcases h with h1 | h1 | h1
    · exact Or.inl (by rw [h1])
    · exact Or.inr (by rw [h1])
    · simp at h1

theorem dget_applySignals_absent (ev : EvaluatorOutput) (st : State) (caps : Caps)
    (q : String) (hm : q ≠ "morale") (hc : q ≠ "credibility") (hb : q ≠ "backlog")
    (hs : q ≠ "service") : dget (applySignals ev st caps) q = Option.none := by
  unfold applySignals
  rw [dget_combineLoop_ne _ _ _ (fun kv hmem => by
    rcases mem_applyNonsensePenalty _ _ _ _ hmem with h1 | h1 <;> rw [h1] <;>
      first | exact fun he => hc he.symm | exact fun he => hm he.symm)]
  rw [dget_combineLoop_ne _ _ _ (fun kv hmem => by
    rcases mem_applyEventImpact _ _ _ _ hmem with h1 | h1 | h1 | h1 <;> rw [h1] <;>
      first | exact fun he => hm he.symm | exact fun he => hc he.symm
            | exact fun he => hb he.symm | exact fun he => hs he.symm)]
  unfold applyCEOSignals
  simp only [dget]
  rw [if_neg (fun he => hm he.symm), if_neg (fun he => hc he.symm),
    if_neg (fun he => hb he.symm), if_neg (fun he => hs he.symm)]

/-- C9: in every TurnResult the raw deltas reported for backlog and service
are 0 (the raw map stores them under the keys backlog and service while the
turn record reads backlog_pressure and service_risk), while the applied
delta for backlog can be non-zero. -/
theorem c9_raw_deltas_zero :
    (∀ (caps : Caps) (st : State) (d : String) (ev : EvaluatorOutput),
        (resolveTurn caps st d ev).deltas.backlog = 0 ∧
        (resolveTurn caps st d ev).deltas.service = 0) ∧
    (resolveTurn DEFAULT_CAPS baseState "Edge case" extremeEval).applied_deltas.backlog ≠ 0 := by
  constructor
  · intro caps st d ev
    constructor
    · show jsOr0 (dget (applySignals ev (applyContextMods st) caps) "backlog_pressure") = 0
      rw [dget_applySignals_absent _ _ _ _ (by simp) (by simp) (by simp) (by simp)]
      rfl
    · show jsOr0 (dget (applySignals ev (applyContextMods st) caps) "service_risk") = 0
      rw [dget_applySignals_absent _ _ _ _ (by simp) (by simp) (by simp) (by simp)]
      rfl
  · show (clampDeltas (applySignals extremeEval (applyContextMods baseState) DEFAULT_CAPS)
      (applyContextMods baseState) DEFAULT_CAPS).backlog ≠ 0
    simp only [clampDeltas, clampLoop, clampEntry, applySignals, applyCEOSignals, ceoEntry,
      applyEventImpact, eventChannel, applyNonsensePenalty, combineLoop, dget, dset, jsOr0,
      jsOr1, capLookup, applyContextMods, jround, extremeEval, neutralEval, baseState,
      DEFAULT_CAPS, sgn, String.reduceEq, reduceIte, Option.getD]
    norm_num [min_def, max_def]

theorem resolveTurn_financials (caps : Caps) (st : State) (d : String) (ev : EvaluatorOutput) :
    (resolveTurn caps st d ev).financials =
      (if 0 < detectCashSpending d ev then
        { computeFinancials (turnFinanceInput st d ev) with
          balance := { (computeFinancials (turnFinanceInput st d ev)).balance with
            cash := max 0 ((computeFinancials (turnFinanceInput st d ev)).balance.cash -
              spendAmount st d ev) } }
      else computeFinancials (turnFinanceInput st d ev)) := rfl

theorem c5detect : detectCashSpending "spend 50% of our cash" neutralEval = 1/2 := by
  simp only [detectCashSpending, scanPattern, amountPatternAt, pctPatternAt, allPatternAt,
    ofOurCash, parseNum, takeDigits, skipWs, eatLit, eatAlt, digitsToNat, String.data,
    List.map, List.foldl, List.length, Char.reduceToLower, Char.reduceIsDigit,
    Char.reduceIsWhitespace, Char.reduceEq, Char.reduceToNat, String.reduceEq, reduceIte,
    Nat.reduceMul, Nat.reduceAdd, Nat.reduceSub, ne_eq, reduceCtorEq]
  norm_num

theorem c2detect : detectCashSpending "spend 100% of our cash" neutralEval = 1 := by
  simp only [detectCashSpending, scanPattern, amountPatternAt, pctPatternAt, allPatternAt,
    ofOurCash, parseNum, takeDigits, skipWs, eatLit, eatAlt, digitsToNat, String.data,
    List.map, List.foldl, List.length, Char.reduceToLower, Char.reduceIsDigit,
    Char.reduceIsWhitespace, Char.reduceEq, Char.reduceToNat, String.reduceEq, reduceIte,
    Nat.reduceMul, Nat.reduceAdd, Nat.reduceSub, ne_eq, reduceCtorEq]
  norm_num

theorem neutralDrivers (d : String) :
    computeTurnDrivers baseState d neutralEval =
      (BASELINE_DRIVERS, FINANCE_PARAMS_DEFAULT, ([] : List ExplTag)) := by
  simp only [computeTurnDrivers, sgn, baseState, neutralEval, COEF, DRIVER_BOUNDS,
    BASELINE_DRIVERS, FINANCE_PARAMS_DEFAULT, clampQ, jround, String.reduceEq, reduceIte,
    mul_zero, zero_mul, ne_eq, lt_self_iff_false, not_true, not_false_iff, List.append_nil,
    List.nil_append, if_false, if_true]
  norm_num [min_def, max_def, Prod.ext_iff]

theorem neutralFinanceInput (d : String) :
    turnFinanceInput baseState d neutralEval = neutralTurnInput := by
  unfold turnFinanceInput
  rw [neutralDrivers]
  rfl

theorem prevBase : getPrevBalanceFromState baseState = STARTING_BALANCE := rfl

theorem neutralCash : (computeFinancials neutralTurnInput).balance.cash = 250000 ∧
    (computeFinancials neutralTurnInput).balance.debt = 150000 := by
  norm_num [computeFinancials, balanceChecks, financingStep, neutralTurnInput,
    STARTING_BALANCE, BASELINE_DRIVERS, FINANCE_PARAMS_DEFAULT, tol]

/-- C5 counterexample: when the declaration triggers the cash-spending
detector, the snapshot embedded in the turn record differs from the one
computeFinancials returned (its balance.cash was overwritten). -/
theorem c5_counterexample :
    (resolveTurn DEFAULT_CAPS baseState "spend 50% of our cash" neutralEval).financials ≠
      computeFinancials (turnFinanceInput baseState "spend 50% of our cash" neutralEval) := by
  intro h
  have h2 := congrArg (fun s => s.balance.cash) h
  rw [resolveTurn_financials] at h2
  rw [if_pos (by rw [c5detect]; norm_num)] at h2
  simp only [neutralFinanceInput, spendAmount, c5detect, prevBase, STARTING_BALANCE] at h2
  rw [if_pos (by norm_num : (1:ℚ)/2 ≤ 1)] at h2
  rw [neutralCash.1] at h2
  norm_num at h2

/-- C2 counterexample: the detected spend is never passed to
computeFinancials: had it been passed as the extra outflow the claim
describes, the financing step would have drawn debt to restore the buffer
(debt 1150000), but the recorded snapshot keeps debt 150000 and only its
balance.cash was edited afterwards. -/
theorem c2_counterexample :
    0 < detectCashSpending "spend 100% of our cash" neutralEval ∧
    (resolveTurn DEFAULT_CAPS baseState "spend 100% of our cash" neutralEval).financials ≠
      computeFinancials { turnFinanceInput baseState "spend 100% of our cash" neutralEval with
        direct_cash_spending :=
          some (spendAmount baseState "spend 100% of our cash" neutralEval) } := by
  constructor
  · rw [c2detect]; norm_num
  · intro h
    have h2 := congrArg (fun s => s.balance.debt) h
    rw [resolveTurn_financials] at h2
    rw [if_pos (by rw [c2detect]; norm_num)] at h2
    simp only [neutralFinanceInput, spendAmount, c2detect, prevBase, STARTING_BALANCE] at h2
    rw [if_pos (by norm_num : (1:ℚ) ≤ 1)] at h2
    rw [neutralCash.2] at h2
    have hR : (computeFinancials { neutralTurnInput with
        direct_cash_spending := some ((1000000 : ℚ) * 1) }).balance.debt = 1150000 := by
      norm_num [computeFinancials, balanceChecks, financingStep, neutralTurnInput,
        STARTING_BALANCE, BASELINE_DRIVERS, FINANCE_PARAMS_DEFAULT, tol]
    rw [hR] at h2
    norm_num at h2

theorem testDetect : detectCashSpending "Test declaration" neutralEval = 0 := by
  simp only [detectCashSpending, scanPattern, amountPatternAt, pctPatternAt, allPatternAt,
    ofOurCash, parseNum, takeDigits, skipWs, eatLit, eatAlt, digitsToNat, String.data,
    List.map, List.foldl, List.length, Char.reduceToLower, Char.reduceIsDigit,
    Char.reduceIsWhitespace, Char.reduceEq, Char.reduceToNat, String.reduceEq, reduceIte,
    Nat.reduceMul, Nat.reduceAdd, Nat.reduceSub, ne_eq, reduceCtorEq]

/-- C5 (amended): the snapshot embedded in the turn record agrees with the
one computeFinancials returned on every field except balance.cash
(cash_open, pnl, cashflow, cash_close, balance_ok, cash_recon_ok, notes and
the seven other balance fields), and is identical whenever no direct cash
spending is detected. (The unqualified claim fails: a detected spend
mutates balance.cash after creation, see the counterexample.) -/
theorem c5_snapshot_frame (caps : Caps) (st : State) (d : String) (ev : EvaluatorOutput) :
    ((resolveTurn caps st d ev).financials.cash_open =
        (computeFinancials (turnFinanceInput st d ev)).cash_open ∧
     (resolveTurn caps st d ev).financials.pnl =
        (computeFinancials (turnFinanceInput st d ev)).pnl ∧
     (resolveTurn caps st d ev).financials.cashflow =
        (computeFinancials (turnFinanceInput st d ev)).cashflow ∧
     (resolveTurn caps st d ev).financials.cash_close =
        (computeFinancials (turnFinanceInput st d ev)).cash_close ∧
     (resolveTurn caps st d ev).financials.balance_ok =
        (computeFinancials (turnFinanceInput st d ev)).balance_ok ∧
     (resolveTurn caps st d ev).financials.cash_recon_ok =
        (computeFinancials (turnFinanceInput st d ev)).cash_recon_ok ∧
     (resolveTurn caps st d ev).financials.notes =
        (computeFinancials (turnFinanceInput st d ev)).notes ∧
     (resolveTurn caps st d ev).financials.balance.ar =
        (computeFinancials (turnFinanceInput st d ev)).balance.ar ∧
     (resolveTurn caps st d ev).financials.balance.inventory =
        (computeFinancials (turnFinanceInput st d ev)).balance.inventory ∧
     (resolveTurn caps st d ev).financials.balance.ppe =
        (computeFinancials (turnFinanceInput st d ev)).balance.ppe ∧
     (resolveTurn caps st d ev).financials.balance.ap =
        (computeFinancials (turnFinanceInput st d ev)).balance.ap ∧
     (resolveTurn caps st d ev).financials.balance.debt =
        (computeFinancials (turnFinanceInput st d ev)).balance.debt ∧
     (resolveTurn caps st d ev).financials.balance.retained_earnings =
        (computeFinancials (turnFinanceInput st d ev)).balance.retained_earnings ∧
     (resolveTurn caps st d ev).financials.balance.other_equity =
        (computeFinancials (turnFinanceInput st d ev)).balance.other_equity) ∧
    (¬ 0 < detectCashSpending d ev →
      (resolveTurn caps st d ev).financials = computeFinancials (turnFinanceInput st d ev)) := by
  rw [resolveTurn_financials]
  by_cases hd : 0 < detectCashSpending d ev
  · rw [if_pos hd]
    exact ⟨⟨rfl, rfl, rfl, rfl, rfl, rfl, rfl, rfl, rfl, rfl, rfl, rfl, rfl, rfl⟩,
      fun hc => absurd hd hc⟩
  · rw [if_neg hd]
    exact ⟨⟨rfl, rfl, rfl, rfl, rfl, rfl, rfl, rfl, rfl, rfl, rfl, rfl, rfl, rfl⟩,
      fun _ => rfl⟩

theorem c5_witness :
    ¬ 0 < detectCashSpending "Test declaration" neutralEval ∧
    (resolveTurn DEFAULT_CAPS baseState "Test declaration" neutralEval).financials =
      computeFinancials (turnFinanceInput baseState "Test declaration" neutralEval) :=
  ⟨by rw [testDetect]; norm_num,
   (c5_snapshot_frame DEFAULT_CAPS baseState "Test declaration" neutralEval).2
     (by rw [testDetect]; norm_num)⟩

/-- C2 (amended): when a direct cash-spending instruction is detected, the
finance input passes no spend to computeFinancials
(direct_cash_spending = none); instead the snapshot cash balance is
overwritten afterwards with max 0 (cash - spend), the spend amount computed
against the pre-turn cash balance for percentage phrases. -/
theorem c2_direct_spend_postprocessed (caps : Caps) (st : State) (d : String) (ev : EvaluatorOutput)
    (h : 0 < detectCashSpending d ev) :
    (resolveTurn caps st d ev).financials.balance.cash =
      max 0 ((computeFinancials (turnFinanceInput st d ev)).balance.cash - spendAmount st d ev) ∧
    spendAmount st d ev =
      (if detectCashSpending d ev ≤ 1 then
        (getPrevBalanceFromState st).cash * detectCashSpending d ev
       else detectCashSpending d ev) ∧
    (turnFinanceInput st d ev).direct_cash_spending = Option.none := by
  rw [resolveTurn_financials, if_pos h]
  exact ⟨rfl, rfl, rfl⟩

theorem c2_witness :
    0 < detectCashSpending "spend 100% of our cash" neutralEval ∧
    ((resolveTurn DEFAULT_CAPS baseState "spend 100% of our cash" neutralEval).financials.balance.cash =
      max 0 ((computeFinancials
        (turnFinanceInput baseState "spend 100% of our cash" neutralEval)).balance.cash -
        spendAmount baseState "spend 100% of our cash" neutralEval) ∧
     spendAmount baseState "spend 100% of our cash" neutralEval =
      (if detectCashSpending "spend 100% of our cash" neutralEval ≤ 1 then
        (getPrevBalanceFromState baseState).cash *
          detectCashSpending "spend 100% of our cash" neutralEval
       else detectCashSpending "spend 100% of our cash" neutralEval) ∧
     (turnFinanceInput baseState "spend 100% of our cash" neutralEval).direct_cash_spending =
       Option.none) :=
  ⟨by rw [c2detect]; norm_num,
   c2_direct_spend_postprocessed DEFAULT_CAPS baseState "spend 100% of our cash" neutralEval
     (by rw [c2detect]; norm_num)⟩

end GreenCut
